import Mathlib

/-!
Shallow embedding of the FFmpeg NvFBC screen-capture input device
(libavdevice/nvfbc.c, together with the earlier revision of the same
file) and proofs of its specified properties.

Machine integers (C `int`, `int64_t`) are modelled as `Int`; pointers
that only matter by identity are modelled as `Nat` tags; the optional
output `const char **desc` is modelled as a `Bool` saying whether the
pointer is non-NULL, with the stored string returned as an
`Option String`.
-/

deriving instance DecidableEq for Except

namespace NvFBC

/-- NvFBC status codes (`NVFBCSTATUS`).  The vendor enumeration is open
towards future versions, so codes other than the listed ones are
represented by the catch-all constructor `NVFBC_ERR_UNLISTED`. -/
inductive NVFBCSTATUS where
  | NVFBC_SUCCESS
  | NVFBC_ERR_API_VERSION
  | NVFBC_ERR_INTERNAL
  | NVFBC_ERR_INVALID_PARAM
  | NVFBC_ERR_INVALID_PTR
  | NVFBC_ERR_INVALID_HANDLE
  | NVFBC_ERR_MAX_CLIENTS
  | NVFBC_ERR_UNSUPPORTED
  | NVFBC_ERR_OUT_OF_MEMORY
  | NVFBC_ERR_BAD_REQUEST
  | NVFBC_ERR_X
  | NVFBC_ERR_GLX
  | NVFBC_ERR_GL
  | NVFBC_ERR_CUDA
  | NVFBC_ERR_ENCODER
  | NVFBC_ERR_CONTEXT
  | NVFBC_ERR_MUST_RECREATE
  | NVFBC_ERR_VULKAN
  | NVFBC_ERR_UNLISTED (n : Nat)
deriving DecidableEq, Repr

/-- Linux errno values used by the device (AVERROR wraps their negation). -/
def EINVAL : Int := 22
def ENOMEM : Int := 12
def EFAULT : Int := 14
def EBADF : Int := 9
def EUSERS : Int := 87
def ENOSYS : Int := 38
def EBADR : Int := 53
def EIO : Int := 5

/-- `AVERROR(e)` for POSIX errno `e` (error.h: `#define AVERROR(e) (-(e))`). -/
def AVERROR (e : Int) : Int := -e

/-- `MKTAG(a,b,c,d)` from libavutil/macros.h. -/
def MKTAG (a b c d : Int) : Int := a + 256 * b + 65536 * c + 16777216 * d

/-- `FFERRTAG(a,b,c,d)` from libavutil/error.h: negated four-char tag. -/
def FFERRTAG (a b c d : Int) : Int := -(MKTAG a b c d)

/-- `AVERROR_EXTERNAL`: FFERRTAG of the characters E X T space. -/
def AVERROR_EXTERNAL : Int := FFERRTAG 69 88 84 32

/-- `AVERROR_UNKNOWN`: FFERRTAG of the characters U N K N. -/
def AVERROR_UNKNOWN : Int := FFERRTAG 85 78 75 78

/-- `AVERROR_INPUT_CHANGED` (= -0x636e6701 in libavutil/error.h). -/
def AVERROR_INPUT_CHANGED : Int := -1668310785

/-- `AVERROR_PATCHWELCOME`: FFERRTAG of the characters P A W E. -/
def AVERROR_PATCHWELCOME : Int := FFERRTAG 80 65 87 69

/-- One row of the static error translation tables. -/
structure NvErrEntry where
  nverr : NVFBCSTATUS
  averr : Int
  desc : String
deriving DecidableEq, Repr

/-- The static table `nvfbc_errors` of the current revision
(libavdevice/nvfbc.c lines 132-157), including the `NVFBC_ERR_VULKAN`
row guarded by `NVFBC_CHECK_VERSION(1, 8)`. -/
def nvfbc_errors : List NvErrEntry := [
  ⟨.NVFBC_SUCCESS,            0,                      "success"⟩,
  ⟨.NVFBC_ERR_API_VERSION,    AVERROR EINVAL,         "incompatible version"⟩,
  ⟨.NVFBC_ERR_INTERNAL,       AVERROR_EXTERNAL,       "internal error"⟩,
  ⟨.NVFBC_ERR_INVALID_PARAM,  AVERROR EINVAL,         "invalid param"⟩,
  ⟨.NVFBC_ERR_INVALID_PTR,    AVERROR EFAULT,         "invalid pointer"⟩,
  ⟨.NVFBC_ERR_INVALID_HANDLE, AVERROR EBADF,          "invalid handle"⟩,
  ⟨.NVFBC_ERR_MAX_CLIENTS,    AVERROR EUSERS,         "too many clients"⟩,
  ⟨.NVFBC_ERR_UNSUPPORTED,    AVERROR ENOSYS,         "not supported"⟩,
  ⟨.NVFBC_ERR_OUT_OF_MEMORY,  AVERROR ENOMEM,         "out of memory"⟩,
  ⟨.NVFBC_ERR_BAD_REQUEST,    AVERROR EBADR,          "bad request"⟩,
  ⟨.NVFBC_ERR_X,              AVERROR_EXTERNAL,       "X error"⟩,
  ⟨.NVFBC_ERR_GLX,            AVERROR_EXTERNAL,       "GLX error"⟩,
  ⟨.NVFBC_ERR_GL,             AVERROR_EXTERNAL,       "OpenGL error"⟩,
  ⟨.NVFBC_ERR_CUDA,           AVERROR_EXTERNAL,       "CUDA error"⟩,
  ⟨.NVFBC_ERR_ENCODER,        AVERROR_EXTERNAL,       "HW encoder error"⟩,
  ⟨.NVFBC_ERR_CONTEXT,        AVERROR EBADF,          "NvFBC context error"⟩,
  ⟨.NVFBC_ERR_MUST_RECREATE,  AVERROR_INPUT_CHANGED,  "modeset event occurred"⟩,
  ⟨.NVFBC_ERR_VULKAN,         AVERROR_EXTERNAL,       "Vulkan error"⟩
]

/-- The linear scan inside `error_nv2av` of the current revision
(nvfbc.c lines 167-179): first matching row wins; the fall-through
returns `AVERROR_UNKNOWN` with description "unknown error".
`wantDesc` models whether the `desc` out-pointer is non-NULL. -/
def errScan : List NvErrEntry → NVFBCSTATUS → Bool → Int × Option String
  | [], _, wantDesc =>
      (AVERROR_UNKNOWN, if wantDesc then some "unknown error" else none)
  | e :: rest, nverr, wantDesc =>
      if nverr = e.nverr then
        (e.averr, if wantDesc then some e.desc else none)
      else
        errScan rest nverr wantDesc

/-- `error_nv2av` of the current revision (nvfbc.c lines 165-180). -/
def error_nv2av (nverr : NVFBCSTATUS) (wantDesc : Bool) : Int × Option String :=
  errScan nvfbc_errors nverr wantDesc

/-- The static table `nvfbc_errors` of the earlier revision
(src/unnamed/part_002 lines 106-131), including the `NVFBC_ERR_VULKAN`
row guarded by `NVFBC_MIN_VERSION(1, 8)`. -/
def nvfbc_errors_old : List NvErrEntry := [
  ⟨.NVFBC_SUCCESS,            0,                      "success"⟩,
  ⟨.NVFBC_ERR_API_VERSION,    AVERROR EINVAL,         "incompatible version"⟩,
  ⟨.NVFBC_ERR_INTERNAL,       AVERROR_EXTERNAL,       "internal error"⟩,
  ⟨.NVFBC_ERR_INVALID_PARAM,  AVERROR EINVAL,         "invalid param"⟩,
  ⟨.NVFBC_ERR_INVALID_PTR,    AVERROR EFAULT,         "invalid pointer"⟩,
  ⟨.NVFBC_ERR_INVALID_HANDLE, AVERROR EBADF,          "invalid handle"⟩,
  ⟨.NVFBC_ERR_MAX_CLIENTS,    AVERROR EUSERS,         "too many clients"⟩,
  ⟨.NVFBC_ERR_UNSUPPORTED,    AVERROR ENOSYS,         "not supported"⟩,
  ⟨.NVFBC_ERR_OUT_OF_MEMORY,  AVERROR ENOMEM,         "out of memory"⟩,
  ⟨.NVFBC_ERR_BAD_REQUEST,    AVERROR EBADR,          "bad request"⟩,
  ⟨.NVFBC_ERR_X,              AVERROR_EXTERNAL,       "X error"⟩,
  ⟨.NVFBC_ERR_GLX,            AVERROR_EXTERNAL,       "GLX error"⟩,
  ⟨.NVFBC_ERR_GL,             AVERROR_EXTERNAL,       "OpenGL error"⟩,
  ⟨.NVFBC_ERR_CUDA,           AVERROR_EXTERNAL,       "CUDA error"⟩,
  ⟨.NVFBC_ERR_ENCODER,        AVERROR_EXTERNAL,       "HW encoder error"⟩,
  ⟨.NVFBC_ERR_CONTEXT,        AVERROR EBADF,          "NvFBC context error"⟩,
  ⟨.NVFBC_ERR_MUST_RECREATE,  AVERROR_INPUT_CHANGED,  "modeset event occurred"⟩,
  ⟨.NVFBC_ERR_VULKAN,         AVERROR_EXTERNAL,       "Vulkan error"⟩
]

/-- The linear scan inside `error_nv2av` of the earlier revision
(src/unnamed/part_002 lines 135-147); `desc != NULL` is the same test
as the current revision's `desc`. -/
def errScanOld : List NvErrEntry → NVFBCSTATUS → Bool → Int × Option String
  | [], _, wantDesc =>
      (AVERROR_UNKNOWN, if wantDesc then some "unknown error" else none)
  | e :: rest, nverr, wantDesc =>
      if nverr = e.nverr then
        (e.averr, if wantDesc then some e.desc else none)
      else
        errScanOld rest nverr wantDesc

/-- `error_nv2av` of the earlier revision (src/unnamed/part_002 lines
133-148). -/
def error_nv2av_old (nverr : NVFBCSTATUS) (wantDesc : Bool) : Int × Option String :=
  errScanOld nvfbc_errors_old nverr wantDesc

/-- FFmpeg pixel formats used by the device.  `AV_PIX_FMT_ZERO_RGB`
stands for the C name `AV_PIX_FMT_0RGB` (a Lean name cannot start with
a digit); formats the device never names are the catch-all
`AV_PIX_FMT_LISTED_ELSEWHERE`. -/
inductive AVPixelFormat where
  | AV_PIX_FMT_BGRA
  | AV_PIX_FMT_BGR0
  | AV_PIX_FMT_ARGB
  | AV_PIX_FMT_ZERO_RGB
  | AV_PIX_FMT_RGBA
  | AV_PIX_FMT_RGB0
  | AV_PIX_FMT_RGB24
  | AV_PIX_FMT_YUV444P
  | AV_PIX_FMT_NV12
  | AV_PIX_FMT_YUV420P
  | AV_PIX_FMT_CUDA
  | AV_PIX_FMT_NONE
  | AV_PIX_FMT_LISTED_ELSEWHERE (n : Nat)
deriving DecidableEq, Repr

/-- NvFBC buffer formats (`NVFBC_BUFFER_FORMAT`). -/
inductive NVFBC_BUFFER_FORMAT where
  | NVFBC_BUFFER_FORMAT_ARGB
  | NVFBC_BUFFER_FORMAT_RGB
  | NVFBC_BUFFER_FORMAT_NV12
  | NVFBC_BUFFER_FORMAT_YUV444P
  | NVFBC_BUFFER_FORMAT_RGBA
  | NVFBC_BUFFER_FORMAT_BGRA
deriving DecidableEq, Repr

/-- One row of the static pixel-format table. -/
structure NvFmtEntry where
  pix_fmt : AVPixelFormat
  nvfbc_fmt : NVFBC_BUFFER_FORMAT
  bpp : Int
deriving DecidableEq, Repr

/-- The static table `nvfbc_formats` of the current revision
(nvfbc.c lines 113-130). -/
def nvfbc_formats : List NvFmtEntry := [
  ⟨.AV_PIX_FMT_BGRA,      .NVFBC_BUFFER_FORMAT_BGRA,      32⟩,
  ⟨.AV_PIX_FMT_BGR0,      .NVFBC_BUFFER_FORMAT_BGRA,      32⟩,
  ⟨.AV_PIX_FMT_ARGB,      .NVFBC_BUFFER_FORMAT_ARGB,      32⟩,
  ⟨.AV_PIX_FMT_ZERO_RGB,  .NVFBC_BUFFER_FORMAT_ARGB,      32⟩,
  ⟨.AV_PIX_FMT_RGBA,      .NVFBC_BUFFER_FORMAT_RGBA,      32⟩,
  ⟨.AV_PIX_FMT_RGB0,      .NVFBC_BUFFER_FORMAT_RGBA,      32⟩,
  ⟨.AV_PIX_FMT_RGB24,     .NVFBC_BUFFER_FORMAT_RGB,       24⟩,
  ⟨.AV_PIX_FMT_YUV444P,   .NVFBC_BUFFER_FORMAT_YUV444P,   24⟩,
  ⟨.AV_PIX_FMT_NV12,      .NVFBC_BUFFER_FORMAT_NV12,      12⟩
]

/-- The pixel-format loop of `nvfbc_read_header` (nvfbc.c lines
803-808): `format_idx` counts up from 0 and stops at the first row
whose `pix_fmt` equals the requested format; if no row matches it ends
at `FF_ARRAY_ELEMS(nvfbc_formats)`. -/
def find_format_idx (format : AVPixelFormat) : Nat :=
  nvfbc_formats.findIdx (fun e => e.pix_fmt = format)

/-- The pixel-format stage of `nvfbc_read_header` (nvfbc.c lines
803-814): the check `format_idx >= FF_ARRAY_ELEMS(nvfbc_formats)`
fails with `AVERROR(EINVAL)`. -/
def lookup_format (format : AVPixelFormat) : Except Int Nat :=
  let format_idx := find_format_idx format
  if format_idx ≥ nvfbc_formats.length then
    .error (AVERROR EINVAL)
  else
    .ok format_idx

/-- `FFMAX` from libavutil/macros.h. -/
def FFMAX (a b : Int) : Int := if a > b then a else b

/-- The whole-screen capture-region stage of `nvfbc_read_header`
(nvfbc.c lines 774-796), reached only when `output_name` is NULL:
zero width/height default to the remaining screen extent, then the
position and extent checks each fail with `AVERROR(EINVAL)`.
On success it returns the (possibly defaulted) box width and height. -/
def compute_capture_region (screen_w screen_h x y w h : Int) :
    Except Int (Int × Int) :=
  let w := if w = 0 then FFMAX (screen_w - x) 0 else w
  let h := if h = 0 then FFMAX (screen_h - y) 0 else h
  if x < 0 ∨ y < 0 then
    .error (AVERROR EINVAL)
  else if x + w > screen_w ∨ y + h > screen_h then
    .error (AVERROR EINVAL)
  else
    .ok (w, h)

/-- `AVRational` (libavutil/rational.h). -/
structure AVRational where
  num : Int
  den : Int
deriving DecidableEq, Repr

/-- `av_inv_q`: swap numerator and denominator. -/
def av_inv_q (q : AVRational) : AVRational := ⟨q.den, q.num⟩

/-- `AV_TIME_BASE_Q = (AVRational){1, AV_TIME_BASE}` with
`AV_TIME_BASE = 1000000`. -/
def AV_TIME_BASE_Q : AVRational := ⟨1, 1000000⟩

/-- `av_rescale_rnd(a, b, c, AV_ROUND_NEAR_INF)` for the nonnegative
operands used by this device: `(a*b + c/2) / c` in exact integer
arithmetic (rounding to nearest, ties away from zero). -/
def av_rescale (a b c : Int) : Int := (a * b + c / 2) / c

/-- `av_rescale_q(a, bq, cq)` =
`av_rescale_rnd(a, bq.num * cq.den, cq.num * bq.den, AV_ROUND_NEAR_INF)`. -/
def av_rescale_q (a : Int) (bq cq : AVRational) : Int :=
  av_rescale a (bq.num * cq.den) (cq.num * bq.den)

/-- The pacing fields of `NvFBCContext` touched by `wait_frame`. -/
structure PacingCtx where
  frame_duration : Int
  time_frame : Int
deriving DecidableEq, Repr

/-- The stream-information stage of `nvfbc_read_header` (nvfbc.c lines
798-800): `time_base = av_inv_q(framerate)` and
`frame_duration = av_rescale_q(1, time_base, AV_TIME_BASE_Q)`. -/
def frame_duration_of (framerate : AVRational) : Int :=
  av_rescale_q 1 (av_inv_q framerate) AV_TIME_BASE_Q

/-- The busy-wait loop of `wait_frame` (nvfbc.c lines 194-200).
`clock` gives the successive values returned by
`av_gettime_relative()`, indexed by how many times the clock has been
read; `fuel` bounds the number of polls so the embedding is total (the
C loop just keeps polling).  On exit it returns the index of the next
unread clock value and the `curtime` observed at the break. -/
def wait_loop (clock : Nat → Int) (target : Int) :
    Nat → Nat → Option (Nat × Int)
  | 0, _ => none
  | fuel + 1, i =>
      let curtime := clock i
      let delay := target - curtime
      if delay ≤ 0 then some (i + 1, curtime)
      else wait_loop clock target fuel (i + 1)

/-- `wait_frame` (nvfbc.c lines 187-203): advance the stored target
`time_frame` by `frame_duration`, then poll the relative clock until
the target is reached.  Returns the updated pacing state, the clock
value observed at the break and the next clock index. -/
def wait_frame (clock : Nat → Int) (fuel : Nat) (ctx : PacingCtx)
    (i : Nat) : Option (PacingCtx × Int × Nat) :=
  let ctx := { ctx with time_frame := ctx.time_frame + ctx.frame_duration }
  match wait_loop clock ctx.time_frame fuel i with
  | none => none
  | some (j, curtime) => some (ctx, curtime, j)

/-- `n` consecutive packet reads as seen by the pacing state: each
read calls `wait_frame` once (nvfbc.c lines 305, 471). -/
def wait_frames (clock : Nat → Int) (fuel : Nat) :
    Nat → PacingCtx → Nat → Option (PacingCtx × Nat)
  | 0, ctx, i => some (ctx, i)
  | n + 1, ctx, i =>
      match wait_frame clock fuel ctx i with
      | none => none
      | some (ctx, _, j) => wait_frames clock fuel n ctx j

/-- The NvFBC API calls issued through the `NVFBC_API_FUNCTION_LIST`
function-pointer table. -/
inductive NvCall where
  | createInstance
  | createHandle
  | getStatus
  | createCaptureSession
  | toSysSetUp
  | toCudaSetUp
  | toSysGrabFrame
  | toCudaGrabFrame
  | destroyCaptureSession
  | destroyHandle
deriving DecidableEq, Repr

/-- Issue one NvFBC API call: append it to the trace; its status is
chosen by the vendor oracle `ω`, indexed by the call's position in the
trace. -/
def vendorCall (ω : Nat → NVFBCSTATUS) (tr : List NvCall) (c : NvCall) :
    List NvCall × NVFBCSTATUS :=
  (tr ++ [c], ω tr.length)

/-- The mutable fields of `NvFBCContext` (nvfbc.c lines 51-98).
Pointers kept only for identity (`frame_data`, buffer references) are
`Nat` tags or `Bool` flags.  Field defaults give the zero-initialised
demuxer private data combined with the option table's defaults
(nvfbc.c lines 102-110: `pixel_format` defaults to `AV_PIX_FMT_BGRA`,
`framerate` to pal = 25/1). -/
structure NvFBCContext where
  x : Int := 0
  y : Int := 0
  w : Int := 0
  h : Int := 0
  frame_width : Int := 0
  frame_height : Int := 0
  output_name : Option String := none
  output_id : Nat := 0
  format : AVPixelFormat := .AV_PIX_FMT_BGRA
  format_idx : Nat := 0
  hwdevice_name : Option String := none
  hwdevice_ref : Bool := false
  hwframes_ref : Bool := false
  framerate : AVRational := ⟨25, 1⟩
  time_base : AVRational := ⟨0, 1⟩
  frame_duration : Int := 0
  time_frame : Int := 0
  has_handle : Bool := false
  has_capture_session : Bool := false
  frame_data : Nat := 0
deriving DecidableEq, Repr

/-- One entry of `nvgs_params.outputs` as reported by
`nvFBCGetStatus`. -/
structure OutputInfo where
  name : String
  dwId : Nat
  box_x : Int := 0
  box_y : Int := 0
  box_w : Int := 0
  box_h : Int := 0
deriving DecidableEq, Repr

/-- `NVFBC_FRAME_GRAB_INFO` as filled by a grab call. -/
structure FrameGrabInfo where
  dwWidth : Nat := 0
  dwHeight : Nat := 0
  dwByteSize : Nat := 0
  ulTimestampUs : Nat := 0
  bIsNewFrame : Bool := true
deriving DecidableEq, Repr

/-- Results of the external collaborators (X11, CUDA helpers, host
allocators, clocks) and of the data the vendor library reports.
Defaults describe a run where every external step succeeds. -/
structure ExtWorld where
  load_functions_res : Int := 0
  xopen_ok : Bool := true
  screen_w : Int := 1920
  screen_h : Int := 1080
  gettime_relative0 : Int := 0
  canCreateNow : Bool := true
  outputs : List OutputInfo := []
  sys_buffer : Nat := 0
  hwdevice_res : Int := 0
  hwframes_alloc_ok : Bool := true
  hwframes_init_res : Int := 0
  push_res : Int := 0
  new_stream_ok : Bool := true
  wall_time : Int := 0
  grab_info : FrameGrabInfo := {}
  dev_ptr : Nat := 0
  frame_alloc_ok : Bool := true
  buffer_ref_ok : Bool := true
  buf_create_ok : Bool := true
  pkt_buf_create_ok : Bool := true
  image_fill_res : Int := 0
deriving DecidableEq, Repr

/-- Outcome of the `sscanf` cascade over `s->url` in
`nvfbc_read_header` (nvfbc.c lines 755-772), modelled at the level of
which pattern matched.  `empty` covers a NULL, empty or `"pipe:"`
url. -/
inductive UrlSpec where
  | empty
  | size (w h : Int)
  | sizePos (w h x y : Int)
  | pos (x y : Int)
  | outputName (name : String)
deriving DecidableEq, Repr

/-- Store the parsed url into the context, mirroring which fields each
branch of the cascade assigns or resets (nvfbc.c lines 755-772). -/
def apply_url (ctx : NvFBCContext) (u : UrlSpec) : NvFBCContext :=
  match u with
  | .empty => ctx
  | .size w h => { ctx with w := w, h := h }
  | .sizePos w h x y => { ctx with w := w, h := h, x := x, y := y }
  | .pos x y => { ctx with w := 0, h := 0, x := x, y := y }
  | .outputName name =>
      { ctx with w := 0, h := 0, x := 0, y := 0, output_name := some name }

/-- `nvfbc_load_libraries` (nvfbc.c lines 210-234). -/
def nvfbc_load_libraries (ω : Nat → NVFBCSTATUS) (ext : ExtWorld)
    (ctx : NvFBCContext) (tr : List NvCall) :
    NvFBCContext × List NvCall × Except Int Unit :=
  if ext.load_functions_res < 0 then
    (ctx, tr, .error ext.load_functions_res)
  else
    let (tr, nv_res) := vendorCall ω tr .createInstance
    if nv_res ≠ .NVFBC_SUCCESS then
      (ctx, tr, .error (error_nv2av nv_res true).1)
    else
      (ctx, tr, .ok ())

/-- `create_capture_handle` (nvfbc.c lines 554-653): create the NvFBC
handle (setting `has_handle` on success), query the status, check
`bCanCreateNow`, look up the requested output, and default a zero
output frame size to the capture box size. -/
def create_capture_handle (ω : Nat → NVFBCSTATUS) (ext : ExtWorld)
    (ctx : NvFBCContext) (tr : List NvCall) :
    NvFBCContext × List NvCall × Except Int Unit :=
  let (tr, nv_res) := vendorCall ω tr .createHandle
  if nv_res ≠ .NVFBC_SUCCESS then
    (ctx, tr, .error (error_nv2av nv_res true).1)
  else
    let ctx := { ctx with has_handle := true }
    let (tr, nv_res2) := vendorCall ω tr .getStatus
    if nv_res2 ≠ .NVFBC_SUCCESS then
      (ctx, tr, .error (error_nv2av nv_res2 false).1)
    else if ext.canCreateNow = false then
      (ctx, tr, .error AVERROR_EXTERNAL)
    else
      match ctx.output_name with
      | some name =>
          match ext.outputs.find? (fun o => o.name = name) with
          | none => (ctx, tr, .error (AVERROR EINVAL))
          | some o =>
              let ctx := { ctx with
                x := o.box_x, y := o.box_y, w := o.box_w, h := o.box_h,
                output_id := o.dwId }
              let ctx := { ctx with
                frame_width :=
                  if ctx.frame_width = 0 then ctx.w else ctx.frame_width,
                frame_height :=
                  if ctx.frame_height = 0 then ctx.h else ctx.frame_height }
              (ctx, tr, .ok ())
      | none =>
          let ctx := { ctx with
            frame_width :=
              if ctx.frame_width = 0 then ctx.w else ctx.frame_width,
            frame_height :=
              if ctx.frame_height = 0 then ctx.h else ctx.frame_height }
          (ctx, tr, .ok ())

/-- `create_capture_session_tosys` (nvfbc.c lines 236-290):
`nvFBCCreateCaptureSession` (setting `has_capture_session` on
success) then `nvFBCToSysSetUp`, which installs the frame buffer
pointer through `ppBuffer`. -/
def create_capture_session_tosys (ω : Nat → NVFBCSTATUS) (ext : ExtWorld)
    (ctx : NvFBCContext) (tr : List NvCall) :
    NvFBCContext × List NvCall × Except Int Unit :=
  let (tr, nv_res) := vendorCall ω tr .createCaptureSession
  if nv_res ≠ .NVFBC_SUCCESS then
    (ctx, tr, .error (error_nv2av nv_res false).1)
  else
    let ctx := { ctx with has_capture_session := true }
    let (tr, nv_res2) := vendorCall ω tr .toSysSetUp
    if nv_res2 ≠ .NVFBC_SUCCESS then
      (ctx, tr, .error (error_nv2av nv_res2 false).1)
    else
      ({ ctx with frame_data := ext.sys_buffer }, tr, .ok ())

/-- `create_capture_session_tocuda` (nvfbc.c lines 361-451): create
the CUDA device and frames contexts, push the CUDA context, then
`nvFBCCreateCaptureSession` (setting `has_capture_session` on
success) and `nvFBCToCudaSetUp`; the context pop at `error_ctx` has no
modelled state effect. -/
def create_capture_session_tocuda (ω : Nat → NVFBCSTATUS) (ext : ExtWorld)
    (ctx : NvFBCContext) (tr : List NvCall) :
    NvFBCContext × List NvCall × Except Int Unit :=
  if ext.hwdevice_res < 0 then
    (ctx, tr, .error ext.hwdevice_res)
  else
    let ctx := { ctx with hwdevice_ref := true }
    if ext.hwframes_alloc_ok = false then
      (ctx, tr, .error (AVERROR ENOMEM))
    else
      let ctx := { ctx with hwframes_ref := true }
      if ext.hwframes_init_res < 0 then
        (ctx, tr, .error ext.hwframes_init_res)
      else if ext.push_res < 0 then
        (ctx, tr, .error ext.push_res)
      else
        let (tr, nv_res) := vendorCall ω tr .createCaptureSession
        if nv_res ≠ .NVFBC_SUCCESS then
          (ctx, tr, .error (error_nv2av nv_res false).1)
        else
          let ctx := { ctx with has_capture_session := true }
          let (tr, nv_res2) := vendorCall ω tr .toCudaSetUp
          if nv_res2 ≠ .NVFBC_SUCCESS then
            (ctx, tr, .error (error_nv2av nv_res2 false).1)
          else
            (ctx, tr, .ok ())

/-- `AVMEDIA_TYPE_*` media types. -/
inductive AVMediaType where
  | AVMEDIA_TYPE_VIDEO
  | AVMEDIA_TYPE_AUDIO
  | AVMEDIA_TYPE_OTHER (n : Nat)
deriving DecidableEq, Repr

/-- The codec ids the device can put on its stream. -/
inductive AVCodecID where
  | AV_CODEC_ID_RAWVIDEO
  | AV_CODEC_ID_WRAPPED_AVFRAME
  | AV_CODEC_ID_OTHER (n : Nat)
deriving DecidableEq, Repr

/-- The fields of `AVCodecParameters` the device sets. -/
structure AVCodecParameters where
  codec_type : AVMediaType
  codec_id : AVCodecID
  format : AVPixelFormat
  width : Int
  height : Int
  bit_rate : Int
deriving DecidableEq, Repr

/-- The fields of `AVStream` the device sets (`avpriv_set_pts_info`
fixes the stream time base to 1/1000000). -/
structure AVStream where
  time_base : AVRational
  avg_frame_rate : AVRational
  codecpar : AVCodecParameters
deriving DecidableEq, Repr

/-- `AV_INPUT_BUFFER_PADDING_SIZE` (libavcodec/defs.h). -/
def AV_INPUT_BUFFER_PADDING_SIZE : Int := 64

/-- `INT_MAX` for 32-bit int. -/
def INT_MAX : Int := 2147483647

/-- The fallback row used to totalise the `nvfbc_formats[ctx->format_idx]`
array access; it is never reached for the in-bounds indices the code
produces. -/
def nvfmt_fallback : NvFmtEntry :=
  ⟨.AV_PIX_FMT_BGRA, .NVFBC_BUFFER_FORMAT_BGRA, 32⟩

/-- `create_stream` (nvfbc.c lines 655-689): reject overlarge capture
areas, allocate one new stream and fill its parameters; the codec id
and format depend on whether a CUDA device reference exists. -/
def create_stream (ext : ExtWorld) (ctx : NvFBCContext)
    (streams : List AVStream) : List AVStream × Except Int Unit :=
  let frame_size_bits :=
    ctx.frame_width * ctx.frame_height *
      (nvfbc_formats.getD ctx.format_idx nvfmt_fallback).bpp
  if frame_size_bits / 8 + AV_INPUT_BUFFER_PADDING_SIZE > INT_MAX then
    (streams, .error AVERROR_PATCHWELCOME)
  else if ext.new_stream_ok = false then
    (streams, .error (AVERROR ENOMEM))
  else
    let st : AVStream := {
      time_base := ⟨1, 1000000⟩
      avg_frame_rate := ctx.framerate
      codecpar := {
        codec_type := .AVMEDIA_TYPE_VIDEO
        codec_id :=
          if ctx.hwdevice_ref then .AV_CODEC_ID_WRAPPED_AVFRAME
          else .AV_CODEC_ID_RAWVIDEO
        format :=
          if ctx.hwdevice_ref then .AV_PIX_FMT_CUDA else ctx.format
        width := ctx.frame_width
        height := ctx.frame_height
        bit_rate :=
          av_rescale frame_size_bits ctx.framerate.num ctx.framerate.den } }
    (streams ++ [st], .ok ())

/-- The stream a successful `create_stream` appends, in closed form. -/
def built_stream (ctx : NvFBCContext) : AVStream :=
  { time_base := ⟨1, 1000000⟩
    avg_frame_rate := ctx.framerate
    codecpar := {
      codec_type := .AVMEDIA_TYPE_VIDEO
      codec_id :=
        if ctx.hwdevice_ref then .AV_CODEC_ID_WRAPPED_AVFRAME
        else .AV_CODEC_ID_RAWVIDEO
      format :=
        if ctx.hwdevice_ref then .AV_PIX_FMT_CUDA else ctx.format
      width := ctx.frame_width
      height := ctx.frame_height
      bit_rate :=
        av_rescale (ctx.frame_width * ctx.frame_height *
            (nvfbc_formats.getD ctx.format_idx nvfmt_fallback).bpp)
          ctx.framerate.num ctx.framerate.den } }

/-- `nvfbc_read_close` (nvfbc.c lines 691-728): destroy the capture
session when `has_capture_session` is set and clear the flag, then
destroy the handle when `has_handle` is set and clear the flag, then
drop the hardware buffer references. -/
def nvfbc_read_close (ω : Nat → NVFBCSTATUS) (ctx : NvFBCContext)
    (tr : List NvCall) : NvFBCContext × List NvCall :=
  let p1 :=
    if ctx.has_capture_session then
      let (tr, _) := vendorCall ω tr .destroyCaptureSession
      ({ ctx with has_capture_session := false }, tr)
    else (ctx, tr)
  let p2 :=
    if p1.1.has_handle then
      let (tr, _) := vendorCall ω p1.2 .destroyHandle
      ({ p1.1 with has_handle := false }, tr)
    else p1
  ({ p2.1 with hwframes_ref := false, hwdevice_ref := false }, p2.2)

/-- The `error:` label of `nvfbc_read_header` (nvfbc.c lines 839-845):
run `nvfbc_read_close` and return the error. -/
def header_error (ω : Nat → NVFBCSTATUS) (ctx : NvFBCContext)
    (streams : List AVStream) (tr : List NvCall) (res : Int) :
    NvFBCContext × List AVStream × List NvCall × Except Int Unit :=
  let (ctx, tr) := nvfbc_read_close ω ctx tr
  (ctx, streams, tr, .error res)

/-- The capture-region stage of `nvfbc_read_header` (nvfbc.c lines
774-796) as reached with or without an output name: only whole-screen
tracking validates the box. -/
def header_geom (ext : ExtWorld) (ctx : NvFBCContext) :
    Except Int (Int × Int) :=
  match ctx.output_name with
  | none =>
      compute_capture_region ext.screen_w ext.screen_h ctx.x ctx.y ctx.w ctx.h
  | some _ => .ok (ctx.w, ctx.h)

/-- `nvfbc_read_header` (nvfbc.c lines 730-846): load the library,
open the display, parse the url, validate the whole-screen capture
region, compute the pacing fields, look up the pixel format, create
the handle, create the capture session (CUDA variant when a device
was requested) and create the stream; any failure unwinds through
`nvfbc_read_close`. -/
def nvfbc_read_header (ω : Nat → NVFBCSTATUS) (ext : ExtWorld)
    (url : UrlSpec) (ctx : NvFBCContext) (streams : List AVStream) :
    NvFBCContext × List AVStream × List NvCall × Except Int Unit :=
  match nvfbc_load_libraries ω ext ctx [] with
  | (ctx, tr, .error res) => header_error ω ctx streams tr res
  | (ctx, tr, .ok _) =>
    if ext.xopen_ok = false then
      header_error ω ctx streams tr (AVERROR EIO)
    else
      let ctx := apply_url ctx url
      match header_geom ext ctx with
      | .error res => header_error ω ctx streams tr res
      | .ok (w, h) =>
        let ctx := { ctx with w := w, h := h }
        let ctx := { ctx with
          time_base := av_inv_q ctx.framerate,
          frame_duration := frame_duration_of ctx.framerate,
          time_frame := ext.gettime_relative0 }
        match lookup_format ctx.format with
        | .error res => header_error ω ctx streams tr res
        | .ok idx =>
          let ctx := { ctx with format_idx := idx }
          match create_capture_handle ω ext ctx tr with
          | (ctx, tr, .error res) => header_error ω ctx streams tr res
          | (ctx, tr, .ok _) =>
            match
              (if ctx.hwdevice_name.isSome then
                create_capture_session_tocuda ω ext ctx tr
              else
                create_capture_session_tosys ω ext ctx tr) with
            | (ctx, tr, .error res) => header_error ω ctx streams tr res
            | (ctx, tr, .ok _) =>
              match create_stream ext ctx streams with
              | (streams, .error res) => header_error ω ctx streams tr res
              | (streams, .ok _) => (ctx, streams, tr, .ok ())

/-- The fields of `AVFrame` the CUDA packet path sets: a frame whose
`buf[0]` wraps the grabbed CUDA device buffer. -/
structure AVFrameModel where
  format : AVPixelFormat
  width : Int
  height : Int
  hw_frames_ctx : Bool
  buf0_ptr : Nat
  buf0_size : Nat
deriving DecidableEq, Repr

/-- What `pkt->data` points at after a successful read. -/
inductive PktPayload where
  | sysMem (ptr : Nat) (size : Nat)
  | wrappedFrame (f : AVFrameModel)
deriving DecidableEq, Repr

/-- `sizeof(AVFrame)`: an ABI-dependent positive byte count, left
abstract as a fixed constant. -/
def sizeof_AVFrame : Nat := 1

/-- The fields of `AVPacket` the device sets. -/
structure Pkt where
  payload : PktPayload
  size : Nat
  pts : Int
  duration : Int
  trusted : Bool
deriving DecidableEq, Repr

/-- `nvfbc_read_packet_tosys` (nvfbc.c lines 292-332): pace via
`wait_frame` (which advances `time_frame` and returns the wall-clock
pts), grab to system memory once, and wrap `ctx->frame_data` of the
grab's reported byte size into the packet. -/
def nvfbc_read_packet_tosys (ω : Nat → NVFBCSTATUS) (ext : ExtWorld)
    (ctx : NvFBCContext) (tr : List NvCall) :
    NvFBCContext × List NvCall × Except Int Pkt :=
  let ctx := { ctx with time_frame := ctx.time_frame + ctx.frame_duration }
  let pts := ext.wall_time
  let (tr, nv_res) := vendorCall ω tr .toSysGrabFrame
  if nv_res ≠ .NVFBC_SUCCESS then
    (ctx, tr, .error (error_nv2av nv_res false).1)
  else if ext.buf_create_ok = false then
    (ctx, tr, .error (AVERROR ENOMEM))
  else
    (ctx, tr, .ok {
      payload := .sysMem ctx.frame_data ext.grab_info.dwByteSize
      size := ext.grab_info.dwByteSize
      pts := pts
      duration := ctx.frame_duration
      trusted := false })

/-- `nvfbc_read_packet_tocuda` (nvfbc.c lines 453-551): pace via
`wait_frame`, push the CUDA context (returning its error before any
grab when it fails), grab to CUDA memory once, then build an
`AVFrame` whose `buf[0]` wraps the device pointer and hand the frame
itself over as the packet data. -/
def nvfbc_read_packet_tocuda (ω : Nat → NVFBCSTATUS) (ext : ExtWorld)
    (ctx : NvFBCContext) (tr : List NvCall) :
    NvFBCContext × List NvCall × Except Int Pkt :=
  let ctx := { ctx with time_frame := ctx.time_frame + ctx.frame_duration }
  let pts := ext.wall_time
  if ext.push_res < 0 then
    (ctx, tr, .error ext.push_res)
  else
    let (tr, nv_res) := vendorCall ω tr .toCudaGrabFrame
    if nv_res ≠ .NVFBC_SUCCESS then
      (ctx, tr, .error (error_nv2av nv_res false).1)
    else if ext.frame_alloc_ok = false then
      (ctx, tr, .error (AVERROR ENOMEM))
    else if ext.buffer_ref_ok = false then
      (ctx, tr, .error (AVERROR ENOMEM))
    else if ext.buf_create_ok = false then
      (ctx, tr, .error (AVERROR ENOMEM))
    else if ext.image_fill_res < 0 then
      (ctx, tr, .error ext.image_fill_res)
    else if ext.pkt_buf_create_ok = false then
      (ctx, tr, .error (AVERROR ENOMEM))
    else
      let frame : AVFrameModel := {
        format := .AV_PIX_FMT_CUDA
        width := (ext.grab_info.dwWidth : Int)
        height := (ext.grab_info.dwHeight : Int)
        hw_frames_ctx := true
        buf0_ptr := ext.dev_ptr
        buf0_size := ext.grab_info.dwByteSize }
      (ctx, tr, .ok {
        payload := .wrappedFrame frame
        size := sizeof_AVFrame
        pts := pts
        duration := ctx.frame_duration
        trusted := true })

/-- `nvfbc_read_packet` (nvfbc.c lines 848-858): dispatch on whether a
hardware device reference exists. -/
def nvfbc_read_packet (ω : Nat → NVFBCSTATUS) (ext : ExtWorld)
    (ctx : NvFBCContext) (tr : List NvCall) :
    NvFBCContext × List NvCall × Except Int Pkt :=
  if ctx.hwdevice_ref then nvfbc_read_packet_tocuda ω ext ctx tr
  else nvfbc_read_packet_tosys ω ext ctx tr

/-- Number of vendor grab calls in a trace. -/
def grabCount (tr : List NvCall) : Nat :=
  tr.countP (fun c => c = .toSysGrabFrame ∨ c = .toCudaGrabFrame)

/-- The call `c` at position `i` of the trace succeeded. -/
def successAt (ω : Nat → NVFBCSTATUS) (tr : List NvCall) (c : NvCall) : Prop :=
  ∃ i, tr.get? i = some c ∧ ω i = .NVFBC_SUCCESS

/-- Every occurrence of `b` in the trace is preceded by an occurrence
of `a`. -/
def precededBy (tr : List NvCall) (b a : NvCall) : Prop :=
  ∀ i, tr.get? i = some b → ∃ j, j < i ∧ tr.get? j = some a

/-- Every occurrence of `b` in the trace is preceded by a successful
occurrence of `a`. -/
def precededBySuccess (ω : Nat → NVFBCSTATUS) (tr : List NvCall)
    (b a : NvCall) : Prop :=
  ∀ i, tr.get? i = some b →
    ∃ j, j < i ∧ tr.get? j = some a ∧ ω j = .NVFBC_SUCCESS

/-- The creation/teardown invariant of the handle/session state
machine: a set flag witnesses an earlier successful create call, the
capture session is only ever created after the handle, and every
destroy call is preceded by a successful create of the same object. -/
def StInv (ω : Nat → NVFBCSTATUS) (ctx : NvFBCContext)
    (tr : List NvCall) : Prop :=
  (ctx.has_handle = true → successAt ω tr .createHandle) ∧
  (ctx.has_capture_session = true → successAt ω tr .createCaptureSession) ∧
  precededBy tr .createCaptureSession .createHandle ∧
  precededBySuccess ω tr .destroyCaptureSession .createCaptureSession ∧
  precededBySuccess ω tr .destroyHandle .createHandle

/-! ## Theorems -/

/-- Positions of a trace survive appending. -/
theorem trace_get_append {tr l : List NvCall} {i : Nat} {c : NvCall}
    (h : tr.get? i = some c) : (tr ++ l).get? i = some c := by
  have hi : i < tr.length := by
    rcases List.get?_eq_some.mp h with ⟨hlt, _⟩
    exact hlt
  rw [List.get?_append hi]
  exact h

/-- A successful call stays successful after appending to the trace. -/
theorem successAt_append {ω : Nat → NVFBCSTATUS} {tr : List NvCall}
    {c : NvCall} (h : successAt ω tr c) (l : List NvCall) :
    successAt ω (tr ++ l) c := by
  obtain ⟨i, h1, h2⟩ := h
  exact ⟨i, trace_get_append h1, h2⟩

/-- Appending a call whose status is a success yields a successful
occurrence at the end of the trace. -/
theorem successAt_concat {ω : Nat → NVFBCSTATUS} {tr : List NvCall}
    {c : NvCall} (h : ω tr.length = .NVFBC_SUCCESS) :
    successAt ω (tr ++ [c]) c :=
  ⟨tr.length, List.get?_concat_length tr c, h⟩

/-- `precededBy` survives appending a block that contains no new
occurrence of `b`. -/
theorem precededBy_append_not_mem {tr l : List NvCall} {b a : NvCall}
    (h : precededBy tr b a) (hb : b ∉ l) : precededBy (tr ++ l) b a := by
  intro i hi
  by_cases hlt : i < tr.length
  · rw [List.get?_append hlt] at hi
    obtain ⟨j, hj1, hj2⟩ := h i hi
    exact ⟨j, hj1, trace_get_append hj2⟩
  · rw [List.get?_append_right (Nat.le_of_not_lt hlt)] at hi
    exact absurd (List.get?_mem hi) hb

/-- `precededBy` survives any append when `a` already occurs in the
trace. -/
theorem precededBy_append_present {tr l : List NvCall} {b a : NvCall}
    (h : precededBy tr b a) (ha : ∃ j, tr.get? j = some a) :
    precededBy (tr ++ l) b a := by
  intro i hi
  by_cases hlt : i < tr.length
  · rw [List.get?_append hlt] at hi
    obtain ⟨j, hj1, hj2⟩ := h i hi
    exact ⟨j, hj1, trace_get_append hj2⟩
  · obtain ⟨j, hj⟩ := ha
    have hjlt : j < tr.length := by
      rcases List.get?_eq_some.mp hj with ⟨hlt2, _⟩
      exact hlt2
    exact ⟨j, by omega, trace_get_append hj⟩

/-- `precededBySuccess` survives appending a block that contains no
new occurrence of `b`. -/
theorem precededBySuccess_append_not_mem {ω : Nat → NVFBCSTATUS}
    {tr l : List NvCall} {b a : NvCall}
    (h : precededBySuccess ω tr b a) (hb : b ∉ l) :
    precededBySuccess ω (tr ++ l) b a := by
  intro i hi
  by_cases hlt : i < tr.length
  · rw [List.get?_append hlt] at hi
    obtain ⟨j, hj1, hj2, hj3⟩ := h i hi
    exact ⟨j, hj1, trace_get_append hj2, hj3⟩
  · rw [List.get?_append_right (Nat.le_of_not_lt hlt)] at hi
    exact absurd (List.get?_mem hi) hb

/-- `precededBySuccess` survives any append when a successful `a`
already occurs in the trace. -/
theorem precededBySuccess_append_success {ω : Nat → NVFBCSTATUS}
    {tr l : List NvCall} {b a : NvCall}
    (h : precededBySuccess ω tr b a) (ha : successAt ω tr a) :
    precededBySuccess ω (tr ++ l) b a := by
  intro i hi
  by_cases hlt : i < tr.length
  · rw [List.get?_append hlt] at hi
    obtain ⟨j, hj1, hj2, hj3⟩ := h i hi
    exact ⟨j, hj1, trace_get_append hj2, hj3⟩
  · obtain ⟨j, hj1, hj2⟩ := ha
    have hjlt : j < tr.length := by
      rcases List.get?_eq_some.mp hj1 with ⟨hlt2, _⟩
      exact hlt2
    exact ⟨j, by omega, trace_get_append hj1, hj2⟩

/-- C1: for every NvFBC status code listed in the static table
`nvfbc_errors`, `error_nv2av` returns exactly the host error code
paired with it in the table (in particular `NVFBC_ERR_INVALID_PARAM`
maps to `AVERROR(EINVAL)`, `NVFBC_ERR_OUT_OF_MEMORY` to
`AVERROR(ENOMEM)` and `NVFBC_ERR_MUST_RECREATE` to
`AVERROR_INPUT_CHANGED`) and, when the `desc` pointer is non-NULL,
stores the matching description string; for every status code not in
the table it returns `AVERROR_UNKNOWN` and stores "unknown error". -/
theorem error_nv2av_matches_table :
    (∀ e ∈ nvfbc_errors,
        error_nv2av e.nverr true = (e.averr, some e.desc) ∧
        error_nv2av e.nverr false = (e.averr, none)) ∧
    error_nv2av .NVFBC_ERR_INVALID_PARAM true
      = (AVERROR EINVAL, some "invalid param") ∧
    error_nv2av .NVFBC_ERR_OUT_OF_MEMORY true
      = (AVERROR ENOMEM, some "out of memory") ∧
    error_nv2av .NVFBC_ERR_MUST_RECREATE true
      = (AVERROR_INPUT_CHANGED, some "modeset event occurred") ∧
    (∀ s, s ∉ nvfbc_errors.map NvErrEntry.nverr →
        error_nv2av s true = (AVERROR_UNKNOWN, some "unknown error") ∧
        error_nv2av s false = (AVERROR_UNKNOWN, none)) := by
  refine ⟨by decide, by decide, by decide, by decide, ?_⟩
  intro s hs
  cases s <;> first
    | exact ⟨rfl, rfl⟩
    | exact absurd (by decide) hs

/-- Witness for `error_nv2av_matches_table` at concrete inputs. -/
theorem error_nv2av_matches_table_witness :
    error_nv2av .NVFBC_ERR_OUT_OF_MEMORY true
      = (AVERROR ENOMEM, some "out of memory") ∧
    error_nv2av (.NVFBC_ERR_UNLISTED 42) true
      = (AVERROR_UNKNOWN, some "unknown error") :=
  ⟨(error_nv2av_matches_table.1
      ⟨.NVFBC_ERR_OUT_OF_MEMORY, AVERROR ENOMEM, "out of memory"⟩
      (by decide)).1,
   (error_nv2av_matches_table.2.2.2.2 (.NVFBC_ERR_UNLISTED 42) (by decide)).1⟩

/-- C9: `error_nv2av` returns 0 if and only if its input status is
`NVFBC_SUCCESS`; every other status, listed or unknown, yields a
strictly negative value, so a vendor failure is never reported as
success. -/
theorem error_nv2av_zero_iff_success :
    ∀ (s : NVFBCSTATUS) (w : Bool),
      ((error_nv2av s w).1 = 0 ↔ s = .NVFBC_SUCCESS) ∧
      (s ≠ .NVFBC_SUCCESS → (error_nv2av s w).1 < 0) := by
  intro s w
  cases s
  case NVFBC_ERR_UNLISTED n =>
    have h1 : (error_nv2av (.NVFBC_ERR_UNLISTED n) w).1 = AVERROR_UNKNOWN := by
      cases w <;> rfl
    rw [h1]
    exact ⟨⟨fun h => absurd h (by decide),
            fun h => NVFBCSTATUS.noConfusion h⟩,
           fun _ => by decide⟩
  all_goals cases w <;> decide

/-- Witness for `error_nv2av_zero_iff_success` at a concrete input. -/
theorem error_nv2av_zero_iff_success_witness :
    (error_nv2av (.NVFBC_ERR_UNLISTED 7) true).1 < 0 :=
  (error_nv2av_zero_iff_success (.NVFBC_ERR_UNLISTED 7) true).2 (by decide)

/-- C10: the error translation of the earlier revision and of the
current revision are extensionally equal: same host error code and
same stored description for every status and every choice of the
optional description pointer. -/
theorem error_nv2av_old_matches_new :
    ∀ (s : NVFBCSTATUS) (w : Bool), error_nv2av_old s w = error_nv2av s w := by
  intro s w
  cases s <;> cases w <;> rfl

/-- Soundness of the busy-wait loop: when it breaks, the last polled
clock value has reached the target and every earlier poll was below
the target. -/
theorem wait_loop_spec (clock : Nat → Int) (target : Int) :
    ∀ (fuel i j : Nat) (cur : Int),
      wait_loop clock target fuel i = some (j, cur) →
      i < j ∧ cur = clock (j - 1) ∧ target - cur ≤ 0 ∧
      ∀ k, i ≤ k → k < j - 1 → target - clock k > 0 := by
  intro fuel
  induction fuel with
  | zero => intro i j cur h; exact absurd h (by simp [wait_loop])
  | succ n ih =>
      intro i j cur h
      rw [wait_loop] at h
      by_cases hd : target - clock i ≤ 0
      · simp only [hd, if_pos] at h
        obtain ⟨hj, hc⟩ := Prod.mk.injEq .. ▸ Option.some.injEq .. ▸ h
        subst hj
        refine ⟨Nat.lt_succ_self i, by simpa using hc.symm, by simpa [← hc] using hd, ?_⟩
        intro k hk1 hk2
        omega
      · simp only [hd, if_neg, if_false] at h
        obtain ⟨h1, h2, h3, h4⟩ := ih (i + 1) j cur h
        refine ⟨by omega, h2, h3, ?_⟩
        intro k hk1 hk2
        rcases Nat.eq_or_lt_of_le hk1 with rfl | hk
        · omega
        · exact h4 k (by omega) hk2

/-- `wait_frame` in one call: target advanced by exactly
`frame_duration`, duration unchanged, and the loop broke at a clock
value that reached the new target. -/
theorem wait_frame_spec (clock : Nat → Int) (fuel : Nat) (ctx ctx2 : PacingCtx)
    (i j : Nat) (cur : Int)
    (h : wait_frame clock fuel ctx i = some (ctx2, cur, j)) :
    ctx2.time_frame = ctx.time_frame + ctx.frame_duration ∧
    ctx2.frame_duration = ctx.frame_duration ∧
    ctx2.time_frame ≤ cur ∧ cur = clock (j - 1) ∧ i < j ∧
    (∀ k, i ≤ k → k < j - 1 → clock k < ctx2.time_frame) := by
  rw [wait_frame] at h
  rcases hw : wait_loop clock (ctx.time_frame + ctx.frame_duration) fuel i
    with _ | ⟨j', cur'⟩ <;> rw [hw] at h
  · exact absurd h (by simp)
  · simp only [Option.some.injEq, Prod.mk.injEq] at h
    obtain ⟨hctx, hcur, hj⟩ := h
    subst hcur hj
    have e1 : ctx2.time_frame = ctx.time_frame + ctx.frame_duration := by
      rw [← hctx]
    have e2 : ctx2.frame_duration = ctx.frame_duration := by
      rw [← hctx]
    obtain ⟨h1, h2, h3, h4⟩ := wait_loop_spec clock _ fuel i _ _ hw
    refine ⟨e1, e2, by omega, h2, h1, fun k hk1 hk2 => ?_⟩
    have := h4 k hk1 hk2
    omega

/-- C2: each call to `wait_frame` advances the stored target
`time_frame` by exactly `frame_duration` and does not return until
the relative clock has reached that target (every poll before the
break was below the target, the poll at the break at or above it);
hence over `n` consecutive packet reads the targets form an
arithmetic progression with constant step `frame_duration`, whose
value is the framerate interval rescaled to microseconds. -/
theorem wait_frame_constant_framerate_pacing :
    (∀ clock fuel (ctx ctx2 : PacingCtx) i cur j,
        wait_frame clock fuel ctx i = some (ctx2, cur, j) →
        ctx2.time_frame = ctx.time_frame + ctx.frame_duration ∧
        ctx2.time_frame ≤ cur ∧ cur = clock (j - 1) ∧
        (∀ k, i ≤ k → k < j - 1 → clock k < ctx2.time_frame)) ∧
    (∀ clock fuel n (ctx ctx2 : PacingCtx) i j,
        wait_frames clock fuel n ctx i = some (ctx2, j) →
        ctx2.time_frame = ctx.time_frame + n * ctx.frame_duration ∧
        ctx2.frame_duration = ctx.frame_duration) ∧
    (∀ framerate : AVRational,
        frame_duration_of framerate =
          av_rescale 1 (framerate.den * 1000000) framerate.num) := by
  refine ⟨?_, ?_, ?_⟩
  · intro clock fuel ctx ctx2 i cur j h
    obtain ⟨h1, _, h3, h4, _, h6⟩ := wait_frame_spec clock fuel ctx ctx2 i j cur h
    exact ⟨h1, h3, h4, h6⟩
  · intro clock fuel n
    induction n with
    | zero =>
        intro ctx ctx2 i j h
        simp only [wait_frames, Option.some.injEq, Prod.mk.injEq] at h
        rw [← h.1]
        simp
    | succ m ih =>
        intro ctx ctx2 i j h
        rw [wait_frames] at h
        rcases hw : wait_frame clock fuel ctx i with _ | ⟨ctx1, cur1, j1⟩ <;>
          rw [hw] at h
        · exact absurd h (by simp)
        · obtain ⟨e1, e2, _, _, _, _⟩ := wait_frame_spec clock fuel ctx ctx1 i j1 cur1 hw
          obtain ⟨p1, p2⟩ := ih ctx1 ctx2 j1 j h
          constructor
          · rw [p1, e1, e2]; push_cast; ring
          · rw [p2, e2]
  · intro fr
    simp [frame_duration_of, av_rescale_q, av_inv_q, AV_TIME_BASE_Q, av_rescale]

/-- Witness for `wait_frame_constant_framerate_pacing` at a concrete
clock and pacing state. -/
theorem wait_frame_constant_framerate_pacing_witness :
    ((⟨2, 2⟩ : PacingCtx).time_frame
        = (⟨2, 0⟩ : PacingCtx).time_frame + (⟨2, 0⟩ : PacingCtx).frame_duration ∧
      (⟨2, 2⟩ : PacingCtx).time_frame ≤ 2) ∧
    (⟨2, 4⟩ : PacingCtx).time_frame
        = (⟨2, 0⟩ : PacingCtx).time_frame + 2 * (⟨2, 0⟩ : PacingCtx).frame_duration :=
  ⟨(fun h => ⟨h.1, h.2.1⟩)
      (wait_frame_constant_framerate_pacing.1 (fun k => (k : Int)) 5 ⟨2, 0⟩ ⟨2, 2⟩ 0 2 3 (by rfl)),
   (wait_frame_constant_framerate_pacing.2.1 (fun k => (k : Int)) 5 2 ⟨2, 0⟩ ⟨2, 4⟩ 0 5 (by rfl)).1⟩

/-- `nvfbc_read_close` in closed form: it emits the session destroy
(when flagged) before the handle destroy (when flagged), clears both
flags and drops the hardware references. -/
theorem nvfbc_read_close_spec (ω : Nat → NVFBCSTATUS) (ctx : NvFBCContext)
    (tr : List NvCall) :
    nvfbc_read_close ω ctx tr =
      ({ ctx with has_handle := false, has_capture_session := false,
                  hwframes_ref := false, hwdevice_ref := false },
       tr ++ ((if ctx.has_capture_session then [.destroyCaptureSession] else [])
          ++ (if ctx.has_handle then [.destroyHandle] else []))) := by
  rcases ctx with ⟨x, y, w, h, fw, fh, onm, oid, fmt, fidx, hwn, hwr, hfr,
    fr, tb, fd, tf, hh, hcs, fdata⟩
  cases hh <;> cases hcs <;> simp [nvfbc_read_close, vendorCall]

/-- `apply_url` touches only the capture box and the output name. -/
theorem apply_url_preserves (ctx : NvFBCContext) (u : UrlSpec) :
    (apply_url ctx u).format = ctx.format ∧
    (apply_url ctx u).has_handle = ctx.has_handle ∧
    (apply_url ctx u).has_capture_session = ctx.has_capture_session ∧
    (apply_url ctx u).framerate = ctx.framerate ∧
    (apply_url ctx u).hwdevice_name = ctx.hwdevice_name := by
  cases u <;> exact ⟨rfl, rfl, rfl, rfl, rfl⟩

/-- An error out of `compute_capture_region` is always
`AVERROR(EINVAL)`. -/
theorem compute_capture_region_error_einval
    (screen_w screen_h x y w h : Int) (e : Int)
    (hc : compute_capture_region screen_w screen_h x y w h = .error e) :
    e = AVERROR EINVAL := by
  simp only [compute_capture_region] at hc
  split_ifs at hc <;> simp_all

/-- When every stage before the capture-region check succeeds and the
check rejects, `nvfbc_read_header` returns `AVERROR(EINVAL)` having
issued no NvFBC call besides `NvFBCCreateInstance`. -/
theorem header_geometry_failure
    (ω : Nat → NVFBCSTATUS) (ext : ExtWorld) (url : UrlSpec)
    (ctx₀ : NvFBCContext) (streams₀ : List AVStream)
    (hh : ctx₀.has_handle = false) (hcs : ctx₀.has_capture_session = false)
    (hload : ¬ ext.load_functions_res < 0) (hω : ω 0 = .NVFBC_SUCCESS)
    (hx : ext.xopen_ok = true)
    (hout : (apply_url ctx₀ url).output_name = none)
    (e : Int)
    (hgeom : compute_capture_region ext.screen_w ext.screen_h
      (apply_url ctx₀ url).x (apply_url ctx₀ url).y
      (apply_url ctx₀ url).w (apply_url ctx₀ url).h = .error e) :
    (nvfbc_read_header ω ext url ctx₀ streams₀).2 =
      (streams₀, [.createInstance], .error (AVERROR EINVAL)) := by
  have hl : nvfbc_load_libraries ω ext ctx₀ [] =
      (ctx₀, [.createInstance], .ok ()) := by
    simp [nvfbc_load_libraries, vendorCall, hload, hω]
  have he := compute_capture_region_error_einval _ _ _ _ _ _ _ hgeom
  subst he
  have hg : header_geom ext (apply_url ctx₀ url) = .error (AVERROR EINVAL) := by
    rw [header_geom, hout]
    exact hgeom
  rw [nvfbc_read_header, hl]
  simp only [hx, Bool.true_eq_false, if_false, hg, header_error,
    nvfbc_read_close_spec, (apply_url_preserves ctx₀ url).2.1,
    (apply_url_preserves ctx₀ url).2.2.1, hh, hcs, Bool.false_eq_true,
    List.append_nil, if_false]

/-- When every stage before the pixel-format lookup succeeds and the
requested format matches no table row, `nvfbc_read_header` returns
`AVERROR(EINVAL)` having issued no NvFBC call besides
`NvFBCCreateInstance`. -/
theorem header_format_failure
    (ω : Nat → NVFBCSTATUS) (ext : ExtWorld) (url : UrlSpec)
    (ctx₀ : NvFBCContext) (streams₀ : List AVStream)
    (hh : ctx₀.has_handle = false) (hcs : ctx₀.has_capture_session = false)
    (hload : ¬ ext.load_functions_res < 0) (hω : ω 0 = .NVFBC_SUCCESS)
    (hx : ext.xopen_ok = true)
    (hok : (apply_url ctx₀ url).output_name = none →
        ∃ p, compute_capture_region ext.screen_w ext.screen_h
          (apply_url ctx₀ url).x (apply_url ctx₀ url).y
          (apply_url ctx₀ url).w (apply_url ctx₀ url).h = .ok p)
    (hfmt : lookup_format ctx₀.format = .error (AVERROR EINVAL)) :
    (nvfbc_read_header ω ext url ctx₀ streams₀).2 =
      (streams₀, [.createInstance], .error (AVERROR EINVAL)) := by
  have hl : nvfbc_load_libraries ω ext ctx₀ [] =
      (ctx₀, [.createInstance], .ok ()) := by
    simp [nvfbc_load_libraries, vendorCall, hload, hω]
  have hfmt2 : lookup_format (apply_url ctx₀ url).format =
      .error (AVERROR EINVAL) := by
    rw [(apply_url_preserves ctx₀ url).1]; exact hfmt
  rw [nvfbc_read_header, hl]
  rcases ho : (apply_url ctx₀ url).output_name with _ | name
  · obtain ⟨⟨pw, ph⟩, hp⟩ := hok ho
    have hg : header_geom ext (apply_url ctx₀ url) = .ok (pw, ph) := by
      rw [header_geom, ho]
      exact hp
    simp only [hx, Bool.true_eq_false, if_false, hg, hfmt2, header_error,
      nvfbc_read_close_spec, (apply_url_preserves ctx₀ url).2.1,
      (apply_url_preserves ctx₀ url).2.2.1, hh, hcs, Bool.false_eq_true,
      List.append_nil, if_false]
  · have hg : header_geom ext (apply_url ctx₀ url) =
        .ok ((apply_url ctx₀ url).w, (apply_url ctx₀ url).h) := by
      rw [header_geom, ho]
    simp only [hx, Bool.true_eq_false, if_false, hg, hfmt2, header_error,
      nvfbc_read_close_spec, (apply_url_preserves ctx₀ url).2.1,
      (apply_url_preserves ctx₀ url).2.2.1, hh, hcs, Bool.false_eq_true,
      List.append_nil, if_false]

/-- C4: with whole-screen tracking (no output name), a zero capture
width defaults to `max(screen_width - x, 0)` and a zero capture height
to `max(screen_height - y, 0)`, and the header then fails with
`AVERROR(EINVAL)` exactly when the position is negative or the
(defaulted) box extends outside the screen; on such a failure the
header performs no capture: the only NvFBC call in its trace is
`NvFBCCreateInstance`. -/
theorem whole_screen_geometry_validation :
    (∀ screen_w screen_h x y w h : Int,
        compute_capture_region screen_w screen_h x y w h =
          (let wd := if w = 0 then FFMAX (screen_w - x) 0 else w
           let hd := if h = 0 then FFMAX (screen_h - y) 0 else h
           if x < 0 ∨ y < 0 ∨ x + wd > screen_w ∨ y + hd > screen_h then
             .error (AVERROR EINVAL)
           else .ok (wd, hd))) ∧
    (∀ (ω : Nat → NVFBCSTATUS) (ext : ExtWorld) (url : UrlSpec)
        (ctx₀ : NvFBCContext) (streams₀ : List AVStream) (e : Int),
        ctx₀.has_handle = false → ctx₀.has_capture_session = false →
        ¬ ext.load_functions_res < 0 → ω 0 = .NVFBC_SUCCESS →
        ext.xopen_ok = true →
        (apply_url ctx₀ url).output_name = none →
        compute_capture_region ext.screen_w ext.screen_h
          (apply_url ctx₀ url).x (apply_url ctx₀ url).y
          (apply_url ctx₀ url).w (apply_url ctx₀ url).h = .error e →
        (nvfbc_read_header ω ext url ctx₀ streams₀).2 =
          (streams₀, [.createInstance], .error (AVERROR EINVAL))) := by
  constructor
  · intro screen_w screen_h x y w h
    simp only [compute_capture_region]
    split_ifs <;> first | rfl | tauto
  · intro ω ext url ctx₀ streams₀ e hh hcs hload hω hx hout hgeom
    exact header_geometry_failure ω ext url ctx₀ streams₀ hh hcs hload hω hx
      hout e hgeom

/-- Witness for `whole_screen_geometry_validation`: position
`+150+0` on a 100x100 screen (width defaulting to 0) is rejected with
`AVERROR(EINVAL)` before any capture call. -/
theorem whole_screen_geometry_validation_witness :
    (nvfbc_read_header (fun _ => .NVFBC_SUCCESS)
        { screen_w := 100, screen_h := 100 } (.pos 150 0) {} []).2 =
      ([], [.createInstance], .error (AVERROR EINVAL)) :=
  whole_screen_geometry_validation.2 (fun _ => .NVFBC_SUCCESS)
    { screen_w := 100, screen_h := 100 } (.pos 150 0) {} [] (AVERROR EINVAL)
    rfl rfl (by decide) rfl rfl rfl (by decide)

/-- C5: the pixel-format table lookup sets `format_idx` to the
smallest index of `nvfbc_formats` whose FFmpeg pixel format equals the
requested format, and for every requested format matching no table
entry the header fails with `AVERROR(EINVAL)` (before creating the
handle: its trace holds only `NvFBCCreateInstance`). -/
theorem format_lookup_smallest_index :
    (∀ (fmt : AVPixelFormat), ∀ e ∈ nvfbc_formats, e.pix_fmt = fmt →
        find_format_idx fmt < nvfbc_formats.length ∧
        (nvfbc_formats.getD (find_format_idx fmt) nvfmt_fallback).pix_fmt
          = fmt ∧
        (∀ j, j < find_format_idx fmt →
            (nvfbc_formats.getD j nvfmt_fallback).pix_fmt ≠ fmt) ∧
        lookup_format fmt = .ok (find_format_idx fmt)) ∧
    (∀ fmt : AVPixelFormat, (∀ e ∈ nvfbc_formats, e.pix_fmt ≠ fmt) →
        lookup_format fmt = .error (AVERROR EINVAL)) ∧
    (∀ (ω : Nat → NVFBCSTATUS) (ext : ExtWorld) (url : UrlSpec)
        (ctx₀ : NvFBCContext) (streams₀ : List AVStream),
        ctx₀.has_handle = false → ctx₀.has_capture_session = false →
        ¬ ext.load_functions_res < 0 → ω 0 = .NVFBC_SUCCESS →
        ext.xopen_ok = true →
        ((apply_url ctx₀ url).output_name = none →
          ∃ p, compute_capture_region ext.screen_w ext.screen_h
            (apply_url ctx₀ url).x (apply_url ctx₀ url).y
            (apply_url ctx₀ url).w (apply_url ctx₀ url).h = .ok p) →
        (∀ e ∈ nvfbc_formats, e.pix_fmt ≠ ctx₀.format) →
        (nvfbc_read_header ω ext url ctx₀ streams₀).2 =
          (streams₀, [.createInstance], .error (AVERROR EINVAL))) := by
  have part2 : ∀ fmt : AVPixelFormat,
      (∀ e ∈ nvfbc_formats, e.pix_fmt ≠ fmt) →
      lookup_format fmt = .error (AVERROR EINVAL) := by
    intro fmt h
    cases fmt
    case AV_PIX_FMT_LISTED_ELSEWHERE n => exact rfl
    all_goals revert h
    all_goals decide
  refine ⟨?_, part2, ?_⟩
  · intro fmt e he hp
    subst hp
    fin_cases he <;> decide
  · intro ω ext url ctx₀ streams₀ hh hcs hload hω hx hok hfmt
    exact header_format_failure ω ext url ctx₀ streams₀ hh hcs hload hω hx hok
      (part2 _ hfmt)

/-- Witness for `format_lookup_smallest_index`: `AV_PIX_FMT_BGR0` is
found at index 1, and requesting `AV_PIX_FMT_YUV420P` (absent from the
table) makes the header fail with `AVERROR(EINVAL)`. -/
theorem format_lookup_smallest_index_witness :
    ((nvfbc_formats.getD (find_format_idx .AV_PIX_FMT_BGR0)
        nvfmt_fallback).pix_fmt = .AV_PIX_FMT_BGR0 ∧
      lookup_format .AV_PIX_FMT_BGR0
        = .ok (find_format_idx .AV_PIX_FMT_BGR0)) ∧
    (nvfbc_read_header (fun _ => .NVFBC_SUCCESS) {} .empty
        { format := .AV_PIX_FMT_YUV420P } []).2 =
      ([], [.createInstance], .error (AVERROR EINVAL)) :=
  ⟨(fun h => ⟨h.2.1, h.2.2.2⟩)
      (format_lookup_smallest_index.1 .AV_PIX_FMT_BGR0
        ⟨.AV_PIX_FMT_BGR0, .NVFBC_BUFFER_FORMAT_BGRA, 32⟩ (by decide) rfl),
   format_lookup_smallest_index.2.2 (fun _ => .NVFBC_SUCCESS) {} .empty
      { format := .AV_PIX_FMT_YUV420P } [] rfl rfl (by decide) rfl rfl
      (fun _ => ⟨(1920, 1080), by decide⟩) (by decide)⟩

/-- `StInv` is stable under appending calls that are neither a
session create nor a destroy. -/
theorem stInv_append_harmless {ω : Nat → NVFBCSTATUS} {ctx : NvFBCContext}
    {tr : List NvCall} (hI : StInv ω ctx tr) (l : List NvCall)
    (h1 : NvCall.createCaptureSession ∉ l)
    (h2 : NvCall.destroyCaptureSession ∉ l)
    (h3 : NvCall.destroyHandle ∉ l) : StInv ω ctx (tr ++ l) :=
  ⟨fun hh => successAt_append (hI.1 hh) l,
   fun hc => successAt_append (hI.2.1 hc) l,
   precededBy_append_not_mem hI.2.2.1 h1,
   precededBySuccess_append_not_mem hI.2.2.2.1 h2,
   precededBySuccess_append_not_mem hI.2.2.2.2 h3⟩

/-- `StInv` only looks at the two creation flags of the context. -/
theorem stInv_congr {ω : Nat → NVFBCSTATUS} {ctx ctx' : NvFBCContext}
    {tr : List NvCall} (hI : StInv ω ctx tr)
    (hh : ctx'.has_handle = ctx.has_handle)
    (hc : ctx'.has_capture_session = ctx.has_capture_session) :
    StInv ω ctx' tr := by
  refine ⟨?_, ?_, hI.2.2.1, hI.2.2.2.1, hI.2.2.2.2⟩
  · rw [hh]; exact hI.1
  · rw [hc]; exact hI.2.1

/-- `nvfbc_load_libraries` preserves the state-machine invariant. -/
theorem stInv_load {ω : Nat → NVFBCSTATUS} {ext : ExtWorld}
    {ctx : NvFBCContext} {tr : List NvCall} {ctx' : NvFBCContext}
    {tr' : List NvCall} {res : Except Int Unit}
    (h : nvfbc_load_libraries ω ext ctx tr = (ctx', tr', res))
    (hI : StInv ω ctx tr) : StInv ω ctx' tr' := by
  rw [nvfbc_load_libraries] at h
  simp only [vendorCall] at h
  split at h
  · simp only [Prod.mk.injEq] at h
    obtain ⟨rfl, rfl, rfl⟩ := h
    exact hI
  · split at h <;>
      (simp only [Prod.mk.injEq] at h; obtain ⟨rfl, rfl, rfl⟩ := h) <;>
      exact stInv_append_harmless hI _ (by decide) (by decide) (by decide)

/-- `create_capture_handle` preserves the state-machine invariant,
and on success the handle flag is set. -/
theorem stInv_handle {ω : Nat → NVFBCSTATUS} {ext : ExtWorld}
    {ctx : NvFBCContext} {tr : List NvCall} {ctx' : NvFBCContext}
    {tr' : List NvCall} {res : Except Int Unit}
    (h : create_capture_handle ω ext ctx tr = (ctx', tr', res))
    (hI : StInv ω ctx tr) :
    StInv ω ctx' tr' ∧ (res = .ok () → ctx'.has_handle = true) := by
  rw [create_capture_handle] at h
  simp only [vendorCall] at h
  split at h
  · simp only [Prod.mk.injEq] at h
    obtain ⟨rfl, rfl, rfl⟩ := h
    exact ⟨stInv_append_harmless hI _ (by decide) (by decide) (by decide),
           fun he => Except.noConfusion he⟩
  · rename_i hS
    have hSucc : ω tr.length = .NVFBC_SUCCESS := not_not.mp hS
    have hInv1 : StInv ω { ctx with has_handle := true }
        (tr ++ [.createHandle]) := by
      refine ⟨fun _ => successAt_concat hSucc, ?_, ?_, ?_, ?_⟩
      · intro hc; exact successAt_append (hI.2.1 hc) _
      · exact precededBy_append_not_mem hI.2.2.1 (by decide)
      · exact precededBySuccess_append_not_mem hI.2.2.2.1 (by decide)
      · exact precededBySuccess_append_not_mem hI.2.2.2.2 (by decide)
    have hInv2 : StInv ω { ctx with has_handle := true }
        (tr ++ [.createHandle] ++ [.getStatus]) :=
      stInv_append_harmless hInv1 _ (by decide) (by decide) (by decide)
    split at h
    · simp only [Prod.mk.injEq] at h
      obtain ⟨rfl, rfl, rfl⟩ := h
      exact ⟨hInv2, fun he => Except.noConfusion he⟩
    · split at h
      · simp only [Prod.mk.injEq] at h
        obtain ⟨rfl, rfl, rfl⟩ := h
        exact ⟨hInv2, fun he => Except.noConfusion he⟩
      · split at h
        · -- output_name = some name
          split at h
          · -- output not found
            simp only [Prod.mk.injEq] at h
            obtain ⟨rfl, rfl, rfl⟩ := h
            exact ⟨hInv2, fun he => Except.noConfusion he⟩
          · -- output found
            simp only [Prod.mk.injEq] at h
            obtain ⟨rfl, rfl, rfl⟩ := h
            exact ⟨stInv_congr hInv2 rfl rfl, fun _ => rfl⟩
        · -- output_name = none
          simp only [Prod.mk.injEq] at h
          obtain ⟨rfl, rfl, rfl⟩ := h
          exact ⟨stInv_congr hInv2 rfl rfl, fun _ => rfl⟩

/-- The session create at the head of both session stages: appending
a successful `createCaptureSession` to a trace that already holds a
successful `createHandle` keeps the invariant, with the session flag
now justified. -/
theorem stInv_session_concat {ω : Nat → NVFBCSTATUS} {ctx : NvFBCContext}
    {tr : List NvCall} (hI : StInv ω ctx tr) (hh : ctx.has_handle = true)
    (hSucc : ω tr.length = .NVFBC_SUCCESS) :
    StInv ω { ctx with has_capture_session := true }
      (tr ++ [.createCaptureSession]) := by
  have hPres : ∃ j, tr.get? j = some NvCall.createHandle :=
    (hI.1 hh).imp (fun j hj => hj.1)
  refine ⟨?_, fun _ => successAt_concat hSucc, ?_, ?_, ?_⟩
  · intro hhh; exact successAt_append (hI.1 hhh) _
  · exact precededBy_append_present hI.2.2.1 hPres
  · exact precededBySuccess_append_not_mem hI.2.2.2.1 (by decide)
  · exact precededBySuccess_append_not_mem hI.2.2.2.2 (by decide)

/-- `create_capture_session_tosys` preserves the state-machine
invariant when the handle was already created. -/
theorem stInv_tosys {ω : Nat → NVFBCSTATUS} {ext : ExtWorld}
    {ctx : NvFBCContext} {tr : List NvCall} {ctx' : NvFBCContext}
    {tr' : List NvCall} {res : Except Int Unit}
    (h : create_capture_session_tosys ω ext ctx tr = (ctx', tr', res))
    (hI : StInv ω ctx tr) (hh : ctx.has_handle = true) :
    StInv ω ctx' tr' := by
  rw [create_capture_session_tosys] at h
  simp only [vendorCall] at h
  split at h
  · simp only [Prod.mk.injEq] at h
    obtain ⟨rfl, rfl, rfl⟩ := h
    refine ⟨fun hhh => successAt_append (hI.1 hhh) _,
            fun hc => successAt_append (hI.2.1 hc) _,
            precededBy_append_present hI.2.2.1 ((hI.1 hh).imp fun j hj => hj.1),
            precededBySuccess_append_not_mem hI.2.2.2.1 (by decide),
            precededBySuccess_append_not_mem hI.2.2.2.2 (by decide)⟩
  · rename_i hS
    have hInv1 := stInv_session_concat hI hh (not_not.mp hS)
    have hInv2 : StInv ω { ctx with has_capture_session := true }
        (tr ++ [.createCaptureSession] ++ [.toSysSetUp]) :=
      stInv_append_harmless hInv1 _ (by decide) (by decide) (by decide)
    split at h <;>
      (simp only [Prod.mk.injEq] at h; obtain ⟨rfl, rfl, rfl⟩ := h) <;>
      exact stInv_congr hInv2 rfl rfl

/-- `create_capture_session_tocuda` preserves the state-machine
invariant when the handle was already created. -/
theorem stInv_tocuda {ω : Nat → NVFBCSTATUS} {ext : ExtWorld}
    {ctx : NvFBCContext} {tr : List NvCall} {ctx' : NvFBCContext}
    {tr' : List NvCall} {res : Except Int Unit}
    (h : create_capture_session_tocuda ω ext ctx tr = (ctx', tr', res))
    (hI : StInv ω ctx tr) (hh : ctx.has_handle = true) :
    StInv ω ctx' tr' := by
  rw [create_capture_session_tocuda] at h
  simp only [vendorCall] at h
  split at h
  · simp only [Prod.mk.injEq] at h
    obtain ⟨rfl, rfl, rfl⟩ := h
    exact hI
  · split at h
    · simp only [Prod.mk.injEq] at h
      obtain ⟨rfl, rfl, rfl⟩ := h
      exact stInv_congr hI rfl rfl
    · split at h
      · simp only [Prod.mk.injEq] at h
        obtain ⟨rfl, rfl, rfl⟩ := h
        exact stInv_congr hI rfl rfl
      · split at h
        · simp only [Prod.mk.injEq] at h
          obtain ⟨rfl, rfl, rfl⟩ := h
          exact stInv_congr hI rfl rfl
        · have hI2 : StInv ω { { ctx with hwdevice_ref := true }
              with hwframes_ref := true } tr := stInv_congr hI rfl rfl
          have hh2 : ({ { ctx with hwdevice_ref := true }
              with hwframes_ref := true } : NvFBCContext).has_handle
              = true := hh
          split at h
          · simp only [Prod.mk.injEq] at h
            obtain ⟨rfl, rfl, rfl⟩ := h
            refine ⟨fun hhh => successAt_append (hI2.1 hhh) _,
                    fun hc => successAt_append (hI2.2.1 hc) _,
                    precededBy_append_present hI2.2.2.1
                      ((hI2.1 hh2).imp fun j hj => hj.1),
                    precededBySuccess_append_not_mem hI2.2.2.2.1 (by decide),
                    precededBySuccess_append_not_mem hI2.2.2.2.2 (by decide)⟩
          · rename_i hS
            have hInv1 := stInv_session_concat hI2 hh2 (not_not.mp hS)
            have hInv2 : StInv ω
                { { { ctx with hwdevice_ref := true }
                    with hwframes_ref := true }
                  with has_capture_session := true }
                (tr ++ [.createCaptureSession] ++ [.toCudaSetUp]) :=
              stInv_append_harmless hInv1 _ (by decide) (by decide) (by decide)
            split at h <;>
              (simp only [Prod.mk.injEq] at h; obtain ⟨rfl, rfl, rfl⟩ := h) <;>
              exact stInv_congr hInv2 rfl rfl

/-- `nvfbc_read_close` preserves the state-machine invariant: the
destroys it appends are justified by the flags it was given. -/
theorem stInv_close {ω : Nat → NVFBCSTATUS} {ctx : NvFBCContext}
    {tr : List NvCall} (hI : StInv ω ctx tr) :
    StInv ω (nvfbc_read_close ω ctx tr).1 (nvfbc_read_close ω ctx tr).2 := by
  rw [nvfbc_read_close_spec]
  rcases h1 : ctx.has_capture_session <;> rcases h2 : ctx.has_handle <;>
    simp only [h1, h2, Bool.false_eq_true, if_false, if_true,
      List.append_nil, List.nil_append]
  · -- nothing flagged
    exact ⟨fun hx => absurd hx (by simp), fun hx => absurd hx (by simp),
           hI.2.2.1, hI.2.2.2.1, hI.2.2.2.2⟩
  · -- only the handle flagged
    refine ⟨fun hx => absurd hx (by simp), fun hx => absurd hx (by simp),
            ?_, ?_, ?_⟩
    · exact precededBy_append_not_mem hI.2.2.1 (by decide)
    · exact precededBySuccess_append_not_mem hI.2.2.2.1 (by decide)
    · exact precededBySuccess_append_success hI.2.2.2.2 (hI.1 h2)
  · -- only the session flagged
    refine ⟨fun hx => absurd hx (by simp), fun hx => absurd hx (by simp),
            ?_, ?_, ?_⟩
    · exact precededBy_append_not_mem hI.2.2.1 (by decide)
    · exact precededBySuccess_append_success hI.2.2.2.1 (hI.2.1 h1)
    · exact precededBySuccess_append_not_mem hI.2.2.2.2 (by decide)
  · -- session and handle both flagged
    refine ⟨fun hx => absurd hx (by simp), fun hx => absurd hx (by simp),
            ?_, ?_, ?_⟩
    · exact precededBy_append_not_mem hI.2.2.1 (by decide)
    · exact precededBySuccess_append_success hI.2.2.2.1 (hI.2.1 h1)
    · exact precededBySuccess_append_success hI.2.2.2.2 (hI.1 h2)

/-- The `error:` label in closed form. -/
theorem header_error_spec (ω : Nat → NVFBCSTATUS) (ctx : NvFBCContext)
    (streams : List AVStream) (tr : List NvCall) (res : Int) :
    header_error ω ctx streams tr res =
      ((nvfbc_read_close ω ctx tr).1, streams,
       (nvfbc_read_close ω ctx tr).2, .error res) := by
  rw [header_error]

/-- `nvfbc_read_header` establishes the state-machine invariant from a
zero-initialised context, whatever the oracles decide. -/
theorem stInv_header {ω : Nat → NVFBCSTATUS} {ext : ExtWorld} {url : UrlSpec}
    {ctx₀ : NvFBCContext} {streams₀ : List AVStream}
    {ctx₁ : NvFBCContext} {streams₁ : List AVStream}
    {tr : List NvCall} {res : Except Int Unit}
    (h : nvfbc_read_header ω ext url ctx₀ streams₀ = (ctx₁, streams₁, tr, res))
    (hh0 : ctx₀.has_handle = false) (hcs0 : ctx₀.has_capture_session = false) :
    StInv ω ctx₁ tr := by
  have hI0 : StInv ω ctx₀ [] := by
    refine ⟨fun hx => absurd hx (by simp [hh0]),
            fun hx => absurd hx (by simp [hcs0]), ?_, ?_, ?_⟩
    all_goals (intro i hi; simp [List.get?] at hi)
  rw [nvfbc_read_header] at h
  split at h
  · -- library loading failed
    rename_i ctxa tra e heq
    have hIa : StInv ω ctxa tra := stInv_load heq hI0
    rw [header_error_spec] at h
    simp only [Prod.mk.injEq] at h
    obtain ⟨rfl, -, rfl, -⟩ := h
    exact stInv_close hIa
  · rename_i ctxa tra u heq
    have hIa : StInv ω ctxa tra := stInv_load heq hI0
    split at h
    · -- display open failed
      rw [header_error_spec] at h
      simp only [Prod.mk.injEq] at h
      obtain ⟨rfl, -, rfl, -⟩ := h
      exact stInv_close hIa
    · have hIb : StInv ω (apply_url ctxa url) tra :=
        stInv_congr hIa (apply_url_preserves ctxa url).2.1
          (apply_url_preserves ctxa url).2.2.1
      dsimp only [] at h
      split at h
      · -- capture region rejected
        rw [header_error_spec] at h
        simp only [Prod.mk.injEq] at h
        obtain ⟨rfl, -, rfl, -⟩ := h
        exact stInv_close hIb
      · rename_i p w hgeom
        split at h
        · -- pixel format not found
          rw [header_error_spec] at h
          simp only [Prod.mk.injEq] at h
          obtain ⟨rfl, -, rfl, -⟩ := h
          exact stInv_close (stInv_congr hIb rfl rfl)
        · rename_i idx hfmt
          have hIc : StInv ω _ tra := stInv_congr hIb rfl rfl
          split at h
          · -- handle creation failed
            rename_i ctxd trd e heq2
            obtain ⟨hId, -⟩ := stInv_handle heq2 hIc
            rw [header_error_spec] at h
            simp only [Prod.mk.injEq] at h
            obtain ⟨rfl, -, rfl, -⟩ := h
            exact stInv_close hId
          · rename_i ctxd trd u2 heq2
            obtain ⟨hId, hOk⟩ := stInv_handle heq2 hIc
            have hhd : ctxd.has_handle = true := hOk rfl
            split at h
            · -- capture session creation failed
              rename_i ctxe tre e heq3
              have hIe : StInv ω ctxe tre := by
                by_cases hcu : ctxd.hwdevice_name.isSome = true
                · rw [if_pos hcu] at heq3
                  exact stInv_tocuda heq3 hId hhd
                · rw [if_neg hcu] at heq3
                  exact stInv_tosys heq3 hId hhd
              rw [header_error_spec] at h
              simp only [Prod.mk.injEq] at h
              obtain ⟨rfl, -, rfl, -⟩ := h
              exact stInv_close hIe
            · rename_i ctxe tre u3 heq3
              have hIe : StInv ω ctxe tre := by
                by_cases hcu : ctxd.hwdevice_name.isSome = true
                · rw [if_pos hcu] at heq3
                  exact stInv_tocuda heq3 hId hhd
                · rw [if_neg hcu] at heq3
                  exact stInv_tosys heq3 hId hhd
              split at h
              · -- stream creation failed
                rw [header_error_spec] at h
                simp only [Prod.mk.injEq] at h
                obtain ⟨rfl, -, rfl, -⟩ := h
                exact stInv_close hIe
              · simp only [Prod.mk.injEq] at h
                obtain ⟨rfl, -, rfl, -⟩ := h
                exact hIe

/-- A successful `create_stream` appends exactly `built_stream ctx`. -/
theorem create_stream_ok_spec {ext : ExtWorld} {ctx : NvFBCContext}
    {streams streams2 : List AVStream} {u : Unit}
    (h : create_stream ext ctx streams = (streams2, .ok u)) :
    streams2 = streams ++ [built_stream ctx] := by
  rw [create_stream] at h
  dsimp only [] at h
  split at h
  · simp only [Prod.mk.injEq] at h
    exact absurd h.2 (by simp)
  · split at h
    · simp only [Prod.mk.injEq] at h
      exact absurd h.2 (by simp)
    · simp only [Prod.mk.injEq] at h
      rw [← h.1, built_stream]

/-- A successful `nvfbc_read_header` appends exactly one stream,
built from the final context. -/
theorem header_ok_spec {ω : Nat → NVFBCSTATUS} {ext : ExtWorld}
    {url : UrlSpec} {ctx₀ : NvFBCContext} {streams₀ : List AVStream}
    {ctx₁ : NvFBCContext} {streams₁ : List AVStream} {tr : List NvCall}
    (h : nvfbc_read_header ω ext url ctx₀ streams₀ =
      (ctx₁, streams₁, tr, .ok ())) :
    streams₁ = streams₀ ++ [built_stream ctx₁] := by
  rw [nvfbc_read_header] at h
  split at h
  · rw [header_error_spec] at h
    simp only [Prod.mk.injEq] at h
    exact absurd h.2.2.2 (by simp)
  · split at h
    · rw [header_error_spec] at h
      simp only [Prod.mk.injEq] at h
      exact absurd h.2.2.2 (by simp)
    · dsimp only [] at h
      split at h
      · rw [header_error_spec] at h
        simp only [Prod.mk.injEq] at h
        exact absurd h.2.2.2 (by simp)
      · split at h
        · rw [header_error_spec] at h
          simp only [Prod.mk.injEq] at h
          exact absurd h.2.2.2 (by simp)
        · split at h
          · rw [header_error_spec] at h
            simp only [Prod.mk.injEq] at h
            exact absurd h.2.2.2 (by simp)
          · split at h
            · rw [header_error_spec] at h
              simp only [Prod.mk.injEq] at h
              exact absurd h.2.2.2 (by simp)
            · split at h
              · rw [header_error_spec] at h
                simp only [Prod.mk.injEq] at h
                exact absurd h.2.2.2 (by simp)
              · rename_i streams2 u2 heq4
                simp only [Prod.mk.injEq] at h
                obtain ⟨hc, hs, -, -⟩ := h
                subst hc hs
                exact create_stream_ok_spec heq4

/-- C3: teardown unwinds the vendor-call state machine in the reverse
of the creation order: the header only ever creates the capture
session after the handle, each creation flag witnesses an earlier
successful create call, every destroy in the header's trace (error
unwinding included) follows a successful create of the same object,
and `nvfbc_read_close` destroys the session (only when
`has_capture_session` is set) before the handle (only when
`has_handle` is set), clearing both flags. -/
theorem teardown_unwinds_in_reverse :
    (∀ (ω : Nat → NVFBCSTATUS) (ext : ExtWorld) (url : UrlSpec)
        (ctx₀ ctx₁ : NvFBCContext) (streams₀ streams₁ : List AVStream)
        (tr : List NvCall) (res : Except Int Unit),
        ctx₀.has_handle = false → ctx₀.has_capture_session = false →
        nvfbc_read_header ω ext url ctx₀ streams₀ =
          (ctx₁, streams₁, tr, res) →
        (ctx₁.has_handle = true → successAt ω tr .createHandle) ∧
        (ctx₁.has_capture_session = true →
          successAt ω tr .createCaptureSession) ∧
        precededBy tr .createCaptureSession .createHandle ∧
        precededBySuccess ω tr .destroyCaptureSession .createCaptureSession ∧
        precededBySuccess ω tr .destroyHandle .createHandle) ∧
    (∀ (ω : Nat → NVFBCSTATUS) (ctx : NvFBCContext) (tr : List NvCall),
        nvfbc_read_close ω ctx tr =
          ({ ctx with has_handle := false, has_capture_session := false,
                      hwframes_ref := false, hwdevice_ref := false },
           tr ++
            ((if ctx.has_capture_session then [.destroyCaptureSession]
              else [])
              ++ (if ctx.has_handle then [.destroyHandle] else [])))) :=
  ⟨fun _ _ _ _ _ _ _ _ _ hh hcs h => stInv_header h hh hcs,
   nvfbc_read_close_spec⟩

/-- Witness for `teardown_unwinds_in_reverse`: an all-success run
from a zero-initialised context, and a close on a fully-created
state. -/
theorem teardown_unwinds_in_reverse_witness :
    (successAt (fun _ => .NVFBC_SUCCESS)
      (nvfbc_read_header (fun _ => .NVFBC_SUCCESS) {} .empty {} []).2.2.1
      .createHandle) ∧
    nvfbc_read_close (fun _ => .NVFBC_SUCCESS)
        { has_handle := true, has_capture_session := true } [] =
      ({}, [.destroyCaptureSession, .destroyHandle]) :=
  ⟨(teardown_unwinds_in_reverse.1 (fun _ => .NVFBC_SUCCESS) {} .empty {}
      _ [] _ _ _ rfl rfl rfl).1 (by decide),
   teardown_unwinds_in_reverse.2 (fun _ => .NVFBC_SUCCESS)
      { has_handle := true, has_capture_session := true } []⟩

/-- C7: a successful `nvfbc_read_header` adds exactly one stream to
the format context, and that stream is a video stream carrying
uncompressed data (raw video, or a wrapped AVFrame in the CUDA case),
with width and height the configured output frame size and average
frame rate the configured framerate. -/
theorem header_creates_single_video_stream :
    ∀ (ω : Nat → NVFBCSTATUS) (ext : ExtWorld) (url : UrlSpec)
      (ctx₀ : NvFBCContext) (streams₀ : List AVStream)
      (ctx₁ : NvFBCContext) (streams₁ : List AVStream) (tr : List NvCall),
      nvfbc_read_header ω ext url ctx₀ streams₀ =
        (ctx₁, streams₁, tr, .ok ()) →
      ∃ st, streams₁ = streams₀ ++ [st] ∧
        streams₁.length = streams₀.length + 1 ∧
        st.codecpar.codec_type = .AVMEDIA_TYPE_VIDEO ∧
        (st.codecpar.codec_id = .AV_CODEC_ID_RAWVIDEO ∨
         st.codecpar.codec_id = .AV_CODEC_ID_WRAPPED_AVFRAME) ∧
        st.codecpar.width = ctx₁.frame_width ∧
        st.codecpar.height = ctx₁.frame_height ∧
        st.avg_frame_rate = ctx₁.framerate ∧
        st.time_base = ⟨1, 1000000⟩ := by
  intro ω ext url ctx₀ streams₀ ctx₁ streams₁ tr h
  have hs := header_ok_spec h
  refine ⟨built_stream ctx₁, hs, by rw [hs]; simp, rfl, ?_, rfl, rfl, rfl, rfl⟩
  by_cases hw : ctx₁.hwdevice_ref = true <;>
    simp [built_stream, hw]

/-- Witness for `header_creates_single_video_stream` on an
all-success run. -/
theorem header_creates_single_video_stream_witness :
    ∃ st, (nvfbc_read_header (fun _ => .NVFBC_SUCCESS) {} .empty {} []).2.1
        = [] ++ [st] ∧
      (nvfbc_read_header (fun _ => .NVFBC_SUCCESS) {} .empty {} []).2.1.length
        = List.length ([] : List AVStream) + 1 ∧
      st.codecpar.codec_type = .AVMEDIA_TYPE_VIDEO ∧
      (st.codecpar.codec_id = .AV_CODEC_ID_RAWVIDEO ∨
       st.codecpar.codec_id = .AV_CODEC_ID_WRAPPED_AVFRAME) ∧
      st.codecpar.width =
        (nvfbc_read_header (fun _ => .NVFBC_SUCCESS) {} .empty {} []).1.frame_width ∧
      st.codecpar.height =
        (nvfbc_read_header (fun _ => .NVFBC_SUCCESS) {} .empty {} []).1.frame_height ∧
      st.avg_frame_rate =
        (nvfbc_read_header (fun _ => .NVFBC_SUCCESS) {} .empty {} []).1.framerate ∧
      st.time_base = ⟨1, 1000000⟩ :=
  header_creates_single_video_stream (fun _ => .NVFBC_SUCCESS) {} .empty {}
    [] _ _ _ rfl

/-- C6: captured frames are exposed in exactly one of two ways
selected by whether a CUDA device reference exists: with one, the
stream's codec id is `AV_CODEC_ID_WRAPPED_AVFRAME` with format
`AV_PIX_FMT_CUDA` and every successful packet's data is an AVFrame
whose buffer wraps the grabbed CUDA device pointer; without one, the
codec id is `AV_CODEC_ID_RAWVIDEO` with the requested pixel format
and every successful packet's data points at the captured frame bytes
in system memory with size the grab's reported byte size. -/
theorem packet_exposure_two_ways :
    (∀ (ext : ExtWorld) (ctx : NvFBCContext)
        (streams streams2 : List AVStream) (u : Unit),
        create_stream ext ctx streams = (streams2, .ok u) →
        ∃ st, streams2 = streams ++ [st] ∧
          (ctx.hwdevice_ref = true →
            st.codecpar.codec_id = .AV_CODEC_ID_WRAPPED_AVFRAME ∧
            st.codecpar.format = .AV_PIX_FMT_CUDA) ∧
          (ctx.hwdevice_ref = false →
            st.codecpar.codec_id = .AV_CODEC_ID_RAWVIDEO ∧
            st.codecpar.format = ctx.format)) ∧
    (∀ (ω : Nat → NVFBCSTATUS) (ext : ExtWorld) (ctx ctx2 : NvFBCContext)
        (tr tr2 : List NvCall) (pkt : Pkt),
        ctx.hwdevice_ref = false →
        nvfbc_read_packet ω ext ctx tr = (ctx2, tr2, .ok pkt) →
        pkt.payload = .sysMem ctx.frame_data ext.grab_info.dwByteSize ∧
        pkt.size = ext.grab_info.dwByteSize) ∧
    (∀ (ω : Nat → NVFBCSTATUS) (ext : ExtWorld) (ctx ctx2 : NvFBCContext)
        (tr tr2 : List NvCall) (pkt : Pkt),
        ctx.hwdevice_ref = true →
        nvfbc_read_packet ω ext ctx tr = (ctx2, tr2, .ok pkt) →
        ∃ f, pkt.payload = .wrappedFrame f ∧
          f.format = .AV_PIX_FMT_CUDA ∧
          f.hw_frames_ctx = true ∧
          f.buf0_ptr = ext.dev_ptr ∧
          f.buf0_size = ext.grab_info.dwByteSize ∧
          pkt.size = sizeof_AVFrame) := by
  refine ⟨?_, ?_, ?_⟩
  · intro ext ctx streams streams2 u h
    refine ⟨built_stream ctx, create_stream_ok_spec h, ?_, ?_⟩ <;>
      (intro hw; constructor <;> simp [built_stream, hw])
  · intro ω ext ctx ctx2 tr tr2 pkt hw h
    rw [nvfbc_read_packet] at h
    rw [if_neg (by simp [hw])] at h
    rw [nvfbc_read_packet_tosys] at h
    dsimp only [] at h
    simp only [vendorCall] at h
    split at h
    · simp only [Prod.mk.injEq] at h
      exact absurd h.2.2 (by simp)
    · split at h
      · simp only [Prod.mk.injEq] at h
        exact absurd h.2.2 (by simp)
      · simp only [Prod.mk.injEq] at h
        obtain ⟨-, -, hp⟩ := h
        simp only [Except.ok.injEq] at hp
        subst hp
        exact ⟨rfl, rfl⟩
  · intro ω ext ctx ctx2 tr tr2 pkt hw h
    rw [nvfbc_read_packet] at h
    rw [if_pos (by simp [hw])] at h
    rw [nvfbc_read_packet_tocuda] at h
    dsimp only [] at h
    simp only [vendorCall] at h
    split at h
    · simp only [Prod.mk.injEq] at h
      exact absurd h.2.2 (by simp)
    · split at h
      · simp only [Prod.mk.injEq] at h
        exact absurd h.2.2 (by simp)
      · split at h
        · simp only [Prod.mk.injEq] at h
          exact absurd h.2.2 (by simp)
        · split at h
          · simp only [Prod.mk.injEq] at h
            exact absurd h.2.2 (by simp)
          · split at h
            · simp only [Prod.mk.injEq] at h
              exact absurd h.2.2 (by simp)
            · split at h
              · simp only [Prod.mk.injEq] at h
                exact absurd h.2.2 (by simp)
              · split at h
                · simp only [Prod.mk.injEq] at h
                  exact absurd h.2.2 (by simp)
                · simp only [Prod.mk.injEq] at h
                  obtain ⟨-, -, hp⟩ := h
                  simp only [Except.ok.injEq] at hp
                  subst hp
                  exact ⟨_, rfl, rfl, rfl, rfl, rfl, rfl⟩

/-- Witness for `packet_exposure_two_ways` on concrete all-success
reads in both modes. -/
theorem packet_exposure_two_ways_witness :
    ((⟨.sysMem 0 0, 0, 0, 0, false⟩ : Pkt).payload
        = .sysMem (({} : NvFBCContext)).frame_data
            (({} : ExtWorld)).grab_info.dwByteSize ∧
      (⟨.sysMem 0 0, 0, 0, 0, false⟩ : Pkt).size
        = (({} : ExtWorld)).grab_info.dwByteSize) ∧
    (∃ f, (⟨.wrappedFrame ⟨.AV_PIX_FMT_CUDA, 0, 0, true, 0, 0⟩,
            sizeof_AVFrame, 0, 0, true⟩ : Pkt).payload = .wrappedFrame f ∧
      f.format = .AV_PIX_FMT_CUDA ∧
      f.hw_frames_ctx = true ∧
      f.buf0_ptr = (({} : ExtWorld)).dev_ptr ∧
      f.buf0_size = (({} : ExtWorld)).grab_info.dwByteSize ∧
      (⟨.wrappedFrame ⟨.AV_PIX_FMT_CUDA, 0, 0, true, 0, 0⟩,
        sizeof_AVFrame, 0, 0, true⟩ : Pkt).size = sizeof_AVFrame) :=
  ⟨packet_exposure_two_ways.2.1 (fun _ => .NVFBC_SUCCESS) {} {} {}
      [] [.toSysGrabFrame] ⟨.sysMem 0 0, 0, 0, 0, false⟩ rfl rfl,
   packet_exposure_two_ways.2.2 (fun _ => .NVFBC_SUCCESS) {}
      { hwdevice_ref := true } { hwdevice_ref := true }
      [] [.toCudaGrabFrame]
      ⟨.wrappedFrame ⟨.AV_PIX_FMT_CUDA, 0, 0, true, 0, 0⟩,
        sizeof_AVFrame, 0, 0, true⟩ rfl rfl⟩

/-- The system-memory packet path issues exactly one grab call. -/
theorem tosys_packet_trace (ω : Nat → NVFBCSTATUS) (ext : ExtWorld)
    (ctx : NvFBCContext) (tr : List NvCall) :
    (nvfbc_read_packet_tosys ω ext ctx tr).2.1 =
      tr ++ [.toSysGrabFrame] := by
  rw [nvfbc_read_packet_tosys]
  dsimp only []
  simp only [vendorCall]
  split
  · rfl
  · split <;> rfl

/-- The CUDA packet path issues exactly one grab call when the
context push succeeds and none when it fails. -/
theorem tocuda_packet_trace (ω : Nat → NVFBCSTATUS) (ext : ExtWorld)
    (ctx : NvFBCContext) (tr : List NvCall) :
    (nvfbc_read_packet_tocuda ω ext ctx tr).2.1 =
      if ext.push_res < 0 then tr else tr ++ [.toCudaGrabFrame] := by
  rw [nvfbc_read_packet_tocuda]
  dsimp only []
  simp only [vendorCall]
  by_cases hp : ext.push_res < 0
  · simp only [hp, if_true, if_pos]
  · simp only [hp, if_false, if_neg, not_false_iff]
    split_ifs <;> rfl

/-- C8 (amended): every invocation of `nvfbc_read_packet` issues at
most one vendor grab call and never retries: the system-memory path
grabs exactly once; the CUDA path grabs exactly once when the CUDA
context push succeeds and performs no grab call at all when the push
fails. -/
theorem read_packet_at_most_one_grab :
    ∀ (ω : Nat → NVFBCSTATUS) (ext : ExtWorld) (ctx : NvFBCContext),
      grabCount (nvfbc_read_packet ω ext ctx []).2.1 ≤ 1 ∧
      (ctx.hwdevice_ref = false →
        (nvfbc_read_packet ω ext ctx []).2.1 = [.toSysGrabFrame]) ∧
      (ctx.hwdevice_ref = true → ¬ ext.push_res < 0 →
        (nvfbc_read_packet ω ext ctx []).2.1 = [.toCudaGrabFrame]) ∧
      (ctx.hwdevice_ref = true → ext.push_res < 0 →
        (nvfbc_read_packet ω ext ctx []).2.1 = []) := by
  intro ω ext ctx
  rcases hw : ctx.hwdevice_ref
  · rw [nvfbc_read_packet, if_neg (by simp [hw])]
    rw [tosys_packet_trace]
    exact ⟨by decide, fun _ => rfl,
           fun hcontra => absurd hcontra (by decide),
           fun hcontra => absurd hcontra (by decide)⟩
  · rw [nvfbc_read_packet, if_pos (by simp [hw])]
    rw [tocuda_packet_trace]
    by_cases hp : ext.push_res < 0
    · rw [if_pos hp]
      exact ⟨by decide, fun hcontra => absurd hcontra (by decide),
             fun _ hc => absurd hp hc, fun _ _ => rfl⟩
    · rw [if_neg hp]
      exact ⟨by decide, fun hcontra => absurd hcontra (by decide),
             fun _ _ => rfl, fun _ hc => absurd hc hp⟩

/-- Witness for `read_packet_at_most_one_grab` on concrete reads in
both modes. -/
theorem read_packet_at_most_one_grab_witness :
    (nvfbc_read_packet (fun _ => .NVFBC_SUCCESS) {} {} []).2.1
        = [.toSysGrabFrame] ∧
    (nvfbc_read_packet (fun _ => .NVFBC_SUCCESS) {}
        { hwdevice_ref := true } []).2.1 = [.toCudaGrabFrame] :=
  ⟨(read_packet_at_most_one_grab (fun _ => .NVFBC_SUCCESS) {} {}).2.1 rfl,
   (read_packet_at_most_one_grab (fun _ => .NVFBC_SUCCESS) {}
      { hwdevice_ref := true }).2.2.1 rfl (by decide)⟩

/-- A concrete invocation of `nvfbc_read_packet` that performs zero
vendor grab calls: a CUDA-mode read whose CUDA context push fails, so
"exactly one blocking vendor capture call per invocation" does not
hold as stated. -/
theorem read_packet_zero_grabs_on_push_failure :
    grabCount (nvfbc_read_packet (fun _ => .NVFBC_SUCCESS)
        { push_res := -1 } { hwdevice_ref := true } []).2.1 = 0 ∧
    grabCount (nvfbc_read_packet (fun _ => .NVFBC_SUCCESS)
        { push_res := -1 } { hwdevice_ref := true } []).2.1 ≠ 1 := by
  decide

end NvFBC
